import Mathlib

/-!
# cachet-monitor: health evaluation and incident lifecycle

A shallow embedding of `cmd/cachet/monitor.go` (package `cachet`):
`AbstractMonitor.Validate`, `ReloadCachetData`, `Init`, `ClockStop`, `tick`
and `AnalyseData`, with explicit state passing.  Every call that leaves the
file (status-page API, incident transport, templates, probe, shell hook)
is either recorded in a trace of `Action`s or answered by an `Api` value.
-/

namespace Cachet

/-! ## float32 arithmetic used by the down-percent computation

`AnalyseData` computes `t := (float32(numDown) / float32(len(history))) * 100`
and compares `int(t)` with the percent thresholds.  Non-negative finite
binary32 values are represented exactly as fractions `(num, den)` of naturals;
every operation rounds to 24 significant bits, ties to even. -/

/-- Quotient `num / den` rounded to the nearest natural, ties to even. -/
def roundHalfEven (num den : Nat) : Nat :=
  let f := num / den
  let r := num % den
  if 2 * r < den then f
  else if den < 2 * r then f + 1
  else if f % 2 = 0 then f else f + 1

/-- Helper of `floorLog2`: at most `fuel` halvings. -/
def floorLog2Aux : Nat → Nat → Nat
  | 0, _ => 0
  | fuel + 1, n => if n ≤ 1 then 0 else floorLog2Aux fuel (n / 2) + 1

/-- The position of the leading bit of `n`, that is `⌊log₂ n⌋` for `n ≥ 1`
(and `0` for `n = 0`). -/
def floorLog2 (n : Nat) : Nat := floorLog2Aux n n

/-- The binary32 value nearest to the fraction `p / q` (round to nearest,
ties to even, 24-bit significand), as an exact fraction.  The exponent range
is not bounded: the values met here (`0 .. 100`, window lengths) are far
from overflow and underflow.  `q = 0` (a NaN or infinity in Go) yields `0`;
`AnalyseData` reads the percentage only when the window is non-empty. -/
def f32Round (p q : Nat) : Nat × Nat :=
  if p = 0 ∨ q = 0 then (0, 1)
  else if q ≤ p then
    -- 2^e ≤ p/q < 2^(e+1)
    let e := floorLog2 (p / q)
    if e ≤ 23 then (roundHalfEven (p * 2 ^ (23 - e)) q, 2 ^ (23 - e))
    else (roundHalfEven p (q * 2 ^ (e - 23)) * 2 ^ (e - 23), 1)
  else
    -- 2^(-k) ≤ p/q < 2^(1-k)
    let k := floorLog2 ((q - 1) / p) + 1
    (roundHalfEven (p * 2 ^ (23 + k)) q, 2 ^ (23 + k))

/-- Conversion `float32(n)` of a non-negative integer. -/
def f32OfNat (n : Nat) : Nat × Nat := f32Round n 1

/-- Division of two binary32 values. -/
def f32Div (a b : Nat × Nat) : Nat × Nat := f32Round (a.1 * b.2) (a.2 * b.1)

/-- Multiplication of a binary32 value by the constant `100`. -/
def f32Mul100 (a : Nat × Nat) : Nat × Nat := f32Round (a.1 * 100) a.2

/-- Conversion `int(t)`: truncation toward zero. -/
def f32ToInt (a : Nat × Nat) : Int := ((a.1 / a.2 : Nat) : Int)

/-- The value `int(t)` for `t := (float32(numDown) / float32(len)) * 100`:
the truncated down-percent that is compared with the percent thresholds. -/
def downPercent (numDown len : Nat) : Int :=
  f32ToInt (f32Mul100 (f32Div (f32OfNat numDown) (f32OfNat len)))

/-! ## Data model -/

/-- Lifecycle state of an incident, as left by the last lifecycle setter
called on the record; `unset` is the zero value of a freshly built record,
before `SetInvestigating` or `SetFixed` is called. -/
inductive IncidentState
  | unset
  | investigating
  | fixed
  deriving DecidableEq

/-- Modelled from the spec: the `Incident` record is declared outside
`monitor.go`.  It carries the id assigned by the remote service, the
component id, subject (`Name`), body (`Message`), notify flag, desired
component status code and lifecycle state. -/
structure Incident where
  ID : Int := 0
  Name : String := ""
  Message : String := ""
  ComponentID : Int := 0
  Notify : Bool := false
  ComponentStatus : Int := 0
  State : IncidentState := IncidentState.unset
  deriving DecidableEq

/-- Modelled from the spec: `Incident.SetInvestigating` is declared outside
`monitor.go`; it puts the incident in lifecycle state INVESTIGATING. -/
def Incident.SetInvestigating (inc : Incident) : Incident :=
  { inc with State := IncidentState.investigating }

/-- Modelled from the spec: `Incident.SetFixed` is declared outside
`monitor.go`; it puts the incident in lifecycle state FIXED. -/
def Incident.SetFixed (inc : Incident) : Incident :=
  { inc with State := IncidentState.fixed }

/-- The stop channel `stopC` as the sequential code sees it.  Nothing is ever
sent on it, so a receive is ready exactly when the channel is closed; `nil`
is the zero value before `ClockStart` makes the channel. -/
inductive StopChan
  | nil
  | isOpen
  | closed
  deriving DecidableEq

/-- The fields of `AbstractMonitor` read or written by the embedded
functions.  `Interval` and `Timeout` are `time.Duration` values (int64). -/
structure AbstractMonitor where
  Name : String := ""
  Target : String := ""
  Enabled : Bool := true
  Interval : Int := 0
  Timeout : Int := 0
  Resync : Int := 0
  MetricID : Int := 0
  ComponentID : Int := 0
  MetricsResponseTime : List Int := []
  MetricsAvailability : List Int := []
  MetricsIncidentCount : List Int := []
  ShellHookOnSuccess : String := ""
  ShellHookOnFailure : String := ""
  HistorySize : Int := 0
  Threshold : Int := 0
  ThresholdCount : Int := 0
  CriticalThreshold : Int := 0
  CriticalThresholdCount : Int := 0
  PartialThreshold : Int := 0
  PartialThresholdCount : Int := 0
  resyncMod : Int := 0
  currentStatus : Int := 0
  currentDownCount : Int := 0
  currentUpCount : Int := 0
  history : List Bool := []
  lastFailReason : String := ""
  incident : Option Incident := none
  stopC : StopChan := StopChan.nil

/-- What `API.GetComponentData` returns. -/
structure ComponentInfo where
  ID : Int := 0
  Name : String := ""
  Enabled : Bool := true
  Status : Int := 0
  deriving DecidableEq

/-- Calls that leave `monitor.go`, in the order they are issued.  Log lines
are not recorded. -/
inductive Action
  | probe
  | sendMetrics (category : String) (ids : List Int) (value : Int)
  | sendMetric (id : Int) (value : Int)
  | incidentSend (inc : Incident)
  | setComponentStatus (status : Int)
  | shellHook (hook name : String) (componentID : Int) (target hooktype data : String)
      (status up down : Int)
  | getComponentData (componentID : Int)
  deriving DecidableEq

/-- Modelled from the spec: the collaborators declared outside `monitor.go`.
* `investigatingTpl`, `fixedTpl`: `Template.*.Exec(getTemplateData(mon))`,
  returning subject and body;
* `send`: `Incident.Send`, a pointer-receiver call: it returns the incident
  as the call leaves it (the remote service assigns the id) and whether an
  error was reported;
* `setComponentStatus`: `API.SetComponentStatus(mon, status)`; the client
  receives the monitor, and the value given here is the cached status it
  leaves in `mon.currentStatus`;
* `getComponentData`, `loadCurrentIncident`: the authoritative component
  record and its open incident, if any. -/
structure Api where
  investigatingTpl : AbstractMonitor → String × String
  fixedTpl : AbstractMonitor → String × String
  send : Incident → Incident × Bool
  setComponentStatus : AbstractMonitor → Int → Int
  getComponentData : Int → ComponentInfo
  loadCurrentIncident : ComponentInfo → Option Incident

/-- Modelled from the spec: the concrete probes behind `iface.test` are
declared outside `monitor.go`.  A probe yields the boolean outcome; `tick`
measures the elapsed milliseconds around the call; a probe may store a
failure reason in `lastFailReason`. -/
structure ProbeResult where
  isUp : Bool
  lag : Int := 0
  failReason : Option String := none
  deriving DecidableEq

/-! ## Validate -/

/-- Constants of `monitor.go`. -/
def DefaultInterval : Int := 60
def DefaultTimeout : Int := 1
def DefaultHistorySize : Int := 10

/-- The constant `time.Second`, in nanoseconds. -/
def timeSecond : Int := 1000000000

/-- Two's-complement wrap-around of int64 arithmetic. -/
def wrap64 (x : Int) : Int := (x + 2 ^ 63) % 2 ^ 64 - 2 ^ 63

/-- The entries of the error list returned by `Validate`; the rendered
message text is not modelled. -/
inductive ValidateError
  | nameRequired
  | timeoutGreaterThanInterval (timeout interval : Int)
  | idsUnset
  | fixedTemplate (err : String)
  | investigatingTemplate (err : String)
  deriving DecidableEq

/-- Method `AbstractMonitor.Validate`.  `fixedErr` and `investigatingErr` are the
results of compiling the two message templates.  Each local name holds the
value of the field of that name at that point of the function; the fields
are written back at the end. -/
def Validate (fixedErr investigatingErr : Option String) (mon : AbstractMonitor) :
    AbstractMonitor × List ValidateError :=
  let errs : List ValidateError := []
  let errs := if mon.Name.length = 0 then errs ++ [ValidateError.nameRequired] else errs
  let interval := if mon.Interval < 1 then DefaultInterval else mon.Interval
  let timeout := if mon.Timeout < 1 then DefaultTimeout else mon.Timeout
  let interval := wrap64 (interval * timeSecond)
  let timeout := wrap64 (timeout * timeSecond)
  let errs := if timeout > interval
    then errs ++ [ValidateError.timeoutGreaterThanInterval timeout interval] else errs
  let errs := if mon.ComponentID = 0 ∧ mon.MetricID = 0
    then errs ++ [ValidateError.idsUnset] else errs
  let historySize := if mon.HistorySize ≤ 0 then DefaultHistorySize else mon.HistorySize
  let threshold := if mon.Threshold ≤ 0 then 0 else mon.Threshold
  let threshold := if threshold > 0 ∧ threshold > historySize then historySize else threshold
  let criticalThreshold := if mon.CriticalThreshold ≤ 0 then 0 else mon.CriticalThreshold
  let criticalThreshold :=
    if criticalThreshold > 0 ∧ criticalThreshold > historySize then historySize
    else criticalThreshold
  let partialThreshold := if mon.PartialThreshold ≤ 0 then 0 else mon.PartialThreshold
  let partialThreshold :=
    if partialThreshold > 0 ∧ partialThreshold > historySize then historySize
    else partialThreshold
  let threshold :=
    if threshold = 0 ∧ criticalThreshold = 0 ∧ partialThreshold = 0 ∧
      mon.ThresholdCount = 0 ∧ mon.CriticalThresholdCount = 0 ∧ mon.PartialThresholdCount = 0
    then 100 else threshold
  let errs := match fixedErr with
    | some e => errs ++ [ValidateError.fixedTemplate e]
    | none => errs
  let errs := match investigatingErr with
    | some e => errs ++ [ValidateError.investigatingTemplate e]
    | none => errs
  ({ mon with
      Interval := interval
      Timeout := timeout
      HistorySize := historySize
      Threshold := threshold
      CriticalThreshold := criticalThreshold
      PartialThreshold := partialThreshold },
   errs)

/-- The history size `Validate` returns. -/
def validHistorySize (mon : AbstractMonitor) : Int :=
  if mon.HistorySize ≤ 0 then DefaultHistorySize else mon.HistorySize

/-- Lines 123-129 (and their two copies): a percent threshold after the two
normalising tests of `Validate`. -/
def clampPercent (threshold historySize : Int) : Int :=
  if (if threshold ≤ 0 then 0 else threshold) > 0 ∧
      (if threshold ≤ 0 then 0 else threshold) > historySize
  then historySize
  else (if threshold ≤ 0 then 0 else threshold)

/-! ## ReloadCachetData, Init, status predicates -/

/-- Method `AbstractMonitor.ReloadCachetData`: overwrite the cached status, the
enabled flag and the tracked incident with the remote values. -/
def ReloadCachetData (api : Api) (mon : AbstractMonitor) : AbstractMonitor × List Action :=
  let compInfo := api.getComponentData mon.ComponentID
  ({ mon with
      currentStatus := compInfo.Status
      Enabled := compInfo.Enabled
      incident := api.loadCurrentIncident compInfo },
   [Action.getComponentData mon.ComponentID])

/-- Method `isUp`: the cached status is 1. -/
def isUp (mon : AbstractMonitor) : Bool := mon.currentStatus == 1

/-- Method `isPartial`: the cached status is 3. -/
def isPartial (mon : AbstractMonitor) : Bool := mon.currentStatus == 3

/-- Method `isCritical`: the cached status is 4. -/
def isCritical (mon : AbstractMonitor) : Bool := mon.currentStatus == 4

/-- Method `AbstractMonitor.Init`: reload the remote data, then record one initial
outcome, the current up-ness; the boolean is `IsValid`. -/
def Init (api : Api) (mon : AbstractMonitor) : (AbstractMonitor × List Action) × Bool :=
  let r := ReloadCachetData api mon
  let mon := r.1
  let IsValid := if mon.ComponentID = 0 then false else true
  let mon := { mon with history := mon.history ++ [isUp mon] }
  ((mon, r.2), IsValid)

/-! ## History window -/

/-- The Go slice expression `s[i:]`: a run-time fault (`none`) unless
`0 ≤ i ≤ len(s)`. -/
def sliceFrom {α : Type} (s : List α) (i : Int) : Option (List α) :=
  if 0 ≤ i ∧ i ≤ (s.length : Int) then some (s.drop i.toNat) else none

/-- Lines 325-328 of `tick`: when the window already holds `HistorySize`
entries or more, keep the most recent `HistorySize - 1`, then append the new
outcome. -/
def recordOutcome (historySize : Int) (history : List Bool) (outcome : Bool) :
    Option (List Bool) :=
  let kept :=
    if (history.length : Int) ≥ historySize
    then sliceFrom history ((history.length : Int) - (historySize - 1))
    else some history
  kept.map (fun h => h ++ [outcome])

/-! ## AnalyseData -/

/-- The three local flags of `AnalyseData`. -/
structure Trigger where
  triggered : Bool := false
  criticalTriggered : Bool := false
  partialTriggered : Bool := false
  deriving DecidableEq

/-- Lines 381-413 of `AnalyseData`: the values of `triggered`,
`criticalTriggered` and `partialTriggered` for `numDown` down entries and
truncated down-percent `t` (`int(t)` in the source). -/
def triggerFlags (mon : AbstractMonitor) (numDown : Nat) (t : Int) : Trigger :=
  if (numDown : Int) > 0 then
    if mon.ThresholdCount > 0 ∨ mon.Threshold > 0 then
      if mon.ThresholdCount > 0 then
        { triggered := decide ((numDown : Int) ≥ mon.ThresholdCount) }
      else
        { triggered := decide (t > mon.Threshold) }
    else
      let criticalTriggered : Bool :=
        if mon.CriticalThresholdCount > 0 ∨ mon.CriticalThreshold > 0 then
          if mon.CriticalThresholdCount > 0 then
            decide ((numDown : Int) ≥ mon.CriticalThresholdCount)
          else
            decide (t > mon.CriticalThreshold)
        else false
      let partialTriggered : Bool :=
        if ¬ criticalTriggered then
          if mon.PartialThresholdCount > 0 ∨ mon.PartialThreshold > 0 then
            (decide (mon.PartialThresholdCount > 0) &&
                decide ((numDown : Int) ≥ mon.PartialThresholdCount)) ||
              (decide (mon.PartialThreshold > 0) && decide (t > mon.PartialThreshold))
          else false
        else false
      { criticalTriggered := criticalTriggered, partialTriggered := partialTriggered }
  else {}

/-- Lines 424-451: build the incident, put it in state INVESTIGATING and
send it; the incident stays in `mon.incident` whatever `Send` reports. -/
def createIncident (api : Api) (f : Trigger) (mon : AbstractMonitor) :
    AbstractMonitor × List Action :=
  let mon := { mon with currentStatus := 2 }
  let tpl := api.investigatingTpl mon
  let incidentForceComponentStatus : Int := if f.partialTriggered then 3 else 4
  let inc : Incident :=
    { Name := tpl.1
      ComponentID := mon.ComponentID
      Message := tpl.2
      Notify := true
      ComponentStatus := incidentForceComponentStatus }
  let inc := inc.SetInvestigating
  ({ mon with incident := some (api.send inc).1 }, [Action.incidentSend inc])

/-- Lines 452-461: re-issue the component status when the cached one differs
from the one the trigger asks for. -/
def forceStatus (api : Api) (f : Trigger) (mon : AbstractMonitor) :
    AbstractMonitor × List Action :=
  let r1 : AbstractMonitor × List Action :=
    if f.triggered || f.criticalTriggered then
      if ! isCritical mon then
        ({ mon with currentStatus := api.setComponentStatus mon 4 },
         [Action.setComponentStatus 4])
      else (mon, [])
    else (mon, [])
  let mon := r1.1
  let r2 : AbstractMonitor × List Action :=
    if f.partialTriggered then
      if ! isPartial mon then
        ({ mon with currentStatus := api.setComponentStatus mon 3 },
         [Action.setComponentStatus 3])
      else (mon, [])
    else (mon, [])
  (r2.1, r1.2 ++ r2.2)

/-- Lines 466-498: the window is not triggering. -/
def backToNormal (api : Api) (mon : AbstractMonitor) : AbstractMonitor × List Action :=
  match mon.incident with
  | none =>
    if ! isUp mon then
      -- status looks wrong though no incident is tracked
      let mon := { mon with lastFailReason := "", incident := none }
      ({ mon with currentStatus := api.setComponentStatus mon 1 },
       [Action.setComponentStatus 1])
    else (mon, [])
  | some inc =>
    let tpl := api.fixedTpl mon
    let inc := { inc with Name := tpl.1, Message := tpl.2 }
    let inc := inc.SetFixed
    ({ mon with lastFailReason := "", incident := none, currentStatus := 1 },
     [Action.incidentSend inc])

/-- Lines 357-367: the recount of up and down entries at the head of
`AnalyseData`. -/
def recount (mon : AbstractMonitor) : AbstractMonitor :=
  { mon with
      currentUpCount := ((mon.history.count true : Nat) : Int)
      currentDownCount := ((mon.history.count false : Nat) : Int) }

/-- Lines 370-373: with no down entry the availability metric is sent. -/
def reportAvailability (mon : AbstractMonitor) : List Action :=
  if mon.history.count false = 0
  then [Action.sendMetrics "availability" mon.MetricsAvailability 1] else []

/-- Method `AbstractMonitor.AnalyseData`: recount the window, and on a saturated
window create, keep or resolve the incident. -/
def AnalyseData (api : Api) (mon : AbstractMonitor) : AbstractMonitor × List Action :=
  let numDown : Nat := mon.history.count false
  let mon := recount mon
  let t := downPercent numDown mon.history.length
  let acts0 := reportAvailability mon
  if (mon.history.length : Int) ≠ mon.HistorySize then
    -- not yet saturated
    (mon, acts0)
  else
    let f := triggerFlags mon numDown t
    if f.triggered || f.criticalTriggered || f.partialTriggered then
      let acts1 := [Action.sendMetrics "incident count" mon.MetricsIncidentCount 1]
      let r1 : AbstractMonitor × List Action :=
        match mon.incident with
        | none => createIncident api f mon
        | some _ => (mon, [])
      let r2 := forceStatus api f r1.1
      (r2.1, acts0 ++ acts1 ++ r1.2 ++ r2.2)
    else
      let r := backToNormal api mon
      (r.1, acts0 ++ r.2)

/-! ## tick -/

/-- Method `AbstractMonitor.triggerShellHook`: nothing when no hook is configured. -/
def triggerShellHook (mon : AbstractMonitor) (hooktype hook data : String) : List Action :=
  if hook.length = 0 then []
  else
    [Action.shellHook hook mon.Name mon.ComponentID mon.Target hooktype data
      mon.currentStatus mon.currentUpCount mon.currentDownCount]

/-- Lines 343-350 of `tick`: the resync counter and the periodic reload.
Go's `%` truncates toward zero. -/
def resyncStep (api : Api) (mon : AbstractMonitor) : AbstractMonitor × List Action :=
  if mon.Resync > 0 then
    let mon := { mon with resyncMod := Int.tmod (mon.resyncMod + 1) mon.Resync }
    if mon.resyncMod = 0 then ReloadCachetData api mon else (mon, [])
  else (mon, [])

/-- The failure reason a probe may leave in `lastFailReason`. -/
def storeFailReason (probe : ProbeResult) (mon : AbstractMonitor) : AbstractMonitor :=
  match probe.failReason with
  | some reason => { mon with lastFailReason := reason }
  | none => mon

/-- Lines 330-350 of `tick`, after the outcome was appended to the window:
classification, failure hook, lag metrics and resync. -/
def afterRecord (api : Api) (probe : ProbeResult) (mon : AbstractMonitor) :
    AbstractMonitor × List Action :=
  let r1 := AnalyseData api mon
  let mon := r1.1
  let acts2 : List Action :=
    if ! probe.isUp then triggerShellHook mon "on_failure" mon.ShellHookOnFailure ""
    else []
  let acts3 : List Action :=
    if mon.MetricID > 0 then [Action.sendMetric mon.MetricID probe.lag] else []
  let acts4 : List Action :=
    [Action.sendMetrics "response time" mon.MetricsResponseTime probe.lag]
  let r5 := resyncStep api mon
  (r5.1, r1.2 ++ acts2 ++ acts3 ++ acts4 ++ r5.2)

/-- Method `AbstractMonitor.tick`, with the result of `iface.test` given as
`probe`.  `none` is a run-time fault (slice bounds out of range). -/
def tick (api : Api) (probe : ProbeResult) (mon : AbstractMonitor) :
    Option (AbstractMonitor × List Action) :=
  if ! mon.Enabled then some (mon, [])
  else
    let mon := storeFailReason probe mon
    match recordOutcome mon.HistorySize mon.history probe.isUp with
    | none => none
    | some h =>
      let r := afterRecord api probe { mon with history := h }
      some (r.1, Action.probe :: r.2)

/-- The scheduler loop of `ClockStart` as a sequence of ticks, each with
the answers the collaborators give in that cycle.  The result is the final
state and the whole trace; a run-time fault ends the program (`none`). -/
def runTicks (mon : AbstractMonitor) :
    List (Api × ProbeResult) → Option (AbstractMonitor × List Action)
  | [] => some (mon, [])
  | (api, probe) :: rest =>
    match tick api probe mon with
    | none => none
    | some (mon1, acts) =>
      match runTicks mon1 rest with
      | none => none
      | some (mon2, acts2) => some (mon2, acts ++ acts2)

/-! ## ClockStart and ClockStop -/

/-- Line 267 of `ClockStart`: `mon.stopC = make(chan bool)`. -/
def makeStopC (mon : AbstractMonitor) : AbstractMonitor :=
  { mon with stopC := StopChan.isOpen }

/-- Method `AbstractMonitor.ClockStop`: a `select` that returns when a receive
on `stopC` is ready (the channel is closed) and otherwise takes the `default`
branch, `close(mon.stopC)`.  The boolean tells whether this call closed the
channel; `none` is a run-time fault (close of a nil channel). -/
def ClockStop (mon : AbstractMonitor) : Option (AbstractMonitor × Bool) :=
  match mon.stopC with
  | StopChan.closed => some (mon, false)
  | StopChan.isOpen => some ({ mon with stopC := StopChan.closed }, true)
  | StopChan.nil => none

/-- Calls of `ClockStop` one after the other, `n` times: the final state and
the number of times the channel was closed; `none` when a call faults. -/
def stopTimes : Nat → AbstractMonitor → Option (AbstractMonitor × Nat)
  | 0, mon => some (mon, 0)
  | n + 1, mon =>
    match ClockStop mon with
    | none => none
    | some (mon1, closedNow) =>
      match stopTimes n mon1 with
      | none => none
      | some (mon2, k) => some (mon2, k + (if closedNow then 1 else 0))

/-! ## Observations on states and traces -/

/-- The flags `AnalyseData` computes for the window held by `mon`: the
number of down entries and the truncated down-percent of that window. -/
def windowFlags (mon : AbstractMonitor) : Trigger :=
  triggerFlags mon (mon.history.count false)
    (downPercent (mon.history.count false) mon.history.length)

/-- The classifier triggers: the condition tested at line 420. -/
def Trigger.fires (f : Trigger) : Bool :=
  f.triggered || f.criticalTriggered || f.partialTriggered

/-- The incidents handed to `Send` in a trace, in order. -/
def incidentsSent : List Action → List Incident
  | [] => []
  | Action.incidentSend inc :: rest => inc :: incidentsSent rest
  | _ :: rest => incidentsSent rest

/-- The status codes passed to `SetComponentStatus` in a trace, in order. -/
def statusCalls : List Action → List Int
  | [] => []
  | Action.setComponentStatus s :: rest => s :: statusCalls rest
  | _ :: rest => statusCalls rest

/-! ## Configurations used in the examples -/

/-- A monitor for the examples: history size 3, plain percent threshold 50,
window `[down, down, up]`, cached status up, no incident tracked. -/
def scenarioA : AbstractMonitor :=
  { Name := "web", ComponentID := 5, HistorySize := 3, Threshold := 50,
    history := [false, false, true], currentStatus := 1 }

/-- Collaborators for the examples: fixed template texts, a `Send` that
fails after the remote id 7 was assigned, and a status client that records
the status it sets. -/
def sampleApi : Api :=
  { investigatingTpl := fun _ => ("down", "investigating")
    fixedTpl := fun _ => ("up", "fixed")
    send := fun inc => ({ inc with ID := 7 }, true)
    setComponentStatus := fun _ s => s
    getComponentData := fun _ => { ID := 5, Enabled := true, Status := 1 }
    loadCurrentIncident := fun _ => none }

/-- The configuration with no threshold set, validated, holding a window of
`Validate`'s default size 10 in which every entry is down. -/
def defaultAllDown : AbstractMonitor :=
  { (Validate none none { Name := "web", ComponentID := 5 }).1 with
      history := List.replicate 10 false, currentStatus := 1 }

/-- A validated configuration with both partial thresholds set (count 3,
percent 1), plain and critical legs unconfigured, and a saturated window
with one down entry of three. -/
def partialBoth : AbstractMonitor :=
  { Name := "web", ComponentID := 5, HistorySize := 3, PartialThresholdCount := 3,
    PartialThreshold := 1, history := [false, true, true], currentStatus := 1 }

/-- Scenario C: critical count 2, partial count 1, a saturated window with
exactly one down entry of three, no incident tracked. -/
def scenarioC : AbstractMonitor :=
  { Name := "web", ComponentID := 5, HistorySize := 3, CriticalThresholdCount := 2,
    PartialThresholdCount := 1, history := [true, false, true], currentStatus := 1 }

/-- An open incident, as tracked after scenario A. -/
def openIncident : Incident :=
  { ID := 7, Name := "down", Message := "investigating", ComponentID := 5, Notify := true,
    ComponentStatus := 4, State := IncidentState.investigating }

/-- Scenario B: the window of scenario A has recovered to `[up, up, up]`
while the incident of scenario A is tracked. -/
def scenarioB : AbstractMonitor :=
  { Name := "web", ComponentID := 5, HistorySize := 3, Threshold := 50,
    history := [true, true, true], currentStatus := 4, lastFailReason := "timeout",
    incident := some openIncident }

/-- The window of scenario A is still down while its incident is tracked. -/
def stillDown : AbstractMonitor :=
  { Name := "web", ComponentID := 5, HistorySize := 3, Threshold := 50,
    history := [false, false, true], currentStatus := 4, lastFailReason := "timeout",
    incident := some openIncident }

/-- The number of probe calls in a trace: the number of outcomes recorded by
`tick`, which records one outcome after each probe. -/
def probeCount : List Action → Nat
  | [] => 0
  | Action.probe :: rest => probeCount rest + 1
  | _ :: rest => probeCount rest

/-- The last `k` elements of a list, in their original order. -/
def lastN {α : Type} (k : Nat) (l : List α) : List α := l.drop (l.length - k)

/-- The part of the monitor that `AnalyseData` and the resync step leave
alone: the window and the configuration read by the loop. -/
def SameWindow (a b : AbstractMonitor) : Prop :=
  a.history = b.history ∧ a.HistorySize = b.HistorySize ∧ a.Resync = b.Resync ∧
    a.ComponentID = b.ComponentID

/-- The remote side agrees with a healthy monitor: the component `componentID`
is reported with status up (1) and without an open incident. -/
def quietReload (api : Api) (componentID : Int) : Prop :=
  (api.getComponentData componentID).Status = 1 ∧
    api.loadCurrentIncident (api.getComponentData componentID) = none

/-- A monitor at start-up: history size 3, plain percent threshold 50, empty
window. -/
def freshMonitor : AbstractMonitor :=
  { Name := "web", ComponentID := 5, HistorySize := 3, Threshold := 50 }

/-- Four cycles answered by `sampleApi`: down, down, up, up. -/
def fourCycles : List (Api × ProbeResult) :=
  [(sampleApi, { isUp := false }), (sampleApi, { isUp := false }),
   (sampleApi, { isUp := true }), (sampleApi, { isUp := true })]

/-- Three cycles answered by `sampleApi`, every probe up. -/
def upCycles : List (Api × ProbeResult) :=
  [(sampleApi, { isUp := true }), (sampleApi, { isUp := true, lag := 12 }),
   (sampleApi, { isUp := true })]

/-- A configuration with history size 4 and plain count threshold 2, at
start-up. -/
def countTwoOfFour : AbstractMonitor :=
  { Name := "web", ComponentID := 5, HistorySize := 4, ThresholdCount := 2 }

/-- Collaborators whose remote component is in status 4 with no open
incident; otherwise as `sampleApi`. -/
def driftApi : Api :=
  { sampleApi with getComponentData := fun _ => { ID := 5, Enabled := true, Status := 4 } }

/-- A healthy monitor that reloads the remote state after every cycle. -/
def resyncEveryCycle : AbstractMonitor :=
  { Name := "web", ComponentID := 5, HistorySize := 3, Threshold := 50, Resync := 1,
    history := [true], currentStatus := 1 }

/-- The number of reloads (`ReloadCachetData` calls, each of which asks for
the component data once) in a trace. -/
def reloadCount : List Action → Nat
  | [] => 0
  | Action.getComponentData _ :: rest => reloadCount rest + 1
  | _ :: rest => reloadCount rest

/-- The interval, in seconds, after the default of `Validate` was applied. -/
def effectiveInterval (mon : AbstractMonitor) : Int :=
  if mon.Interval < 1 then DefaultInterval else mon.Interval

/-- The timeout, in seconds, after the default of `Validate` was applied. -/
def effectiveTimeout (mon : AbstractMonitor) : Int :=
  if mon.Timeout < 1 then DefaultTimeout else mon.Timeout

/-- The error list holds the timeout error of line 112. -/
def hasTimeoutError : List ValidateError → Bool
  | [] => false
  | ValidateError.timeoutGreaterThanInterval _ _ :: _ => true
  | _ :: rest => hasTimeoutError rest

/-- The largest number of seconds whose scaling by `time.Second` fits int64. -/
def maxSeconds : Int := 9223372036

/-- The saturated window of scenario A while its incident is tracked and
the cached status is the one set at creation (2). -/
def stillDownStale : AbstractMonitor :=
  { Name := "web", ComponentID := 5, HistorySize := 3, Threshold := 50,
    history := [false, false, true], currentStatus := 2, lastFailReason := "timeout",
    incident := some openIncident }

/-- A window of two entries for history size 3, both down, with every
threshold at 1 and an incident tracked. -/
def unsaturated : AbstractMonitor :=
  { Name := "web", ComponentID := 5, HistorySize := 3, ThresholdCount := 1, Threshold := 1,
    CriticalThreshold := 1, CriticalThresholdCount := 1, PartialThreshold := 1,
    PartialThresholdCount := 1, history := [false, false], currentStatus := 4,
    lastFailReason := "timeout", incident := some openIncident }

/-- A disabled monitor with a down window, a tracked incident, a failure
hook and resync after every cycle. -/
def disabledMonitor : AbstractMonitor :=
  { Name := "web", Enabled := false, ComponentID := 5, MetricID := 9, HistorySize := 3,
    Threshold := 50, Resync := 1, ShellHookOnFailure := "notify.sh",
    history := [false, false, true], currentStatus := 4, lastFailReason := "timeout",
    incident := some openIncident }

/-- A monitor at start-up that reloads the remote state every second cycle. -/
def resyncEverySecond : AbstractMonitor :=
  { Name := "web", ComponentID := 5, HistorySize := 3, Threshold := 50, Resync := 2 }

/-- Five cycles answered by `sampleApi`: up, down, up, up, down. -/
def fiveCycles : List (Api × ProbeResult) :=
  [(sampleApi, { isUp := true }), (sampleApi, { isUp := false }),
   (sampleApi, { isUp := true }), (sampleApi, { isUp := true }),
   (sampleApi, { isUp := false })]

/-- A named configuration with timeout 1 and an interval of 9223372037
seconds, one more than fits int64 after scaling. -/
def hugeInterval : AbstractMonitor :=
  { Name := "web", ComponentID := 5, Timeout := 1, Interval := 9223372037 }

/-- A named configuration with interval 5 and a timeout of 9223372037
seconds. -/
def hugeTimeout : AbstractMonitor :=
  { Name := "web", ComponentID := 5, Timeout := 9223372037, Interval := 5 }

/-- A named configuration with timeout 30 and interval 10. -/
def slowProbe : AbstractMonitor :=
  { Name := "web", ComponentID := 5, Timeout := 30, Interval := 10 }

/-- A configuration with history size 100 and plain percent threshold 52,
holding a saturated window with 53 down entries and 47 up entries. -/
def fiftyThreeOfHundred : AbstractMonitor :=
  { Name := "web", ComponentID := 5, HistorySize := 100, Threshold := 52,
    history := List.replicate 53 false ++ List.replicate 47 true, currentStatus := 1 }

/-- One down entry of three with plain percent threshold 33. -/
def oneOfThreeAt33 : AbstractMonitor :=
  { Name := "web", ComponentID := 5, HistorySize := 3, Threshold := 33,
    history := [true, false, true], currentStatus := 1 }

/-- One down entry of three with plain percent threshold 32. -/
def oneOfThreeAt32 : AbstractMonitor :=
  { Name := "web", ComponentID := 5, HistorySize := 3, Threshold := 32,
    history := [true, false, true], currentStatus := 1 }

/-- The classifier triggers on the window `h` under the thresholds of `mon`:
the condition of line 420 once `h` is the window. -/
def firesOn (mon : AbstractMonitor) (h : List Bool) : Bool :=
  (triggerFlags mon (h.count false) (downPercent (h.count false) h.length)).fires

/-- The cycle that `tick` runs from `mon` is quiet: the monitor is disabled
or the tick faults, or else the window the cycle analyses is not both
saturated and triggering and the reload, when this cycle ends with one,
reports the component as up with no open incident. -/
def cycleQuiet (api : Api) (probe : ProbeResult) (mon : AbstractMonitor) : Bool :=
  ! mon.Enabled ||
    (match recordOutcome mon.HistorySize mon.history probe.isUp with
      | none => true
      | some h =>
        ! (decide ((h.length : Int) = mon.HistorySize) && firesOn mon h) &&
        (! (decide (0 < mon.Resync) &&
              decide (Int.tmod (mon.resyncMod + 1) mon.Resync = 0)) ||
          (decide ((api.getComponentData mon.ComponentID).Status = 1) &&
            (api.loadCurrentIncident (api.getComponentData mon.ComponentID)).isNone)))

/-- Every cycle of the run of ticks from `mon` is quiet. -/
def runQuiet (mon : AbstractMonitor) : List (Api × ProbeResult) → Bool
  | [] => true
  | (api, probe) :: rest =>
    cycleQuiet api probe mon &&
      (match tick api probe mon with
        | none => true
        | some (mon1, _) => runQuiet mon1 rest)

/-- A healthy monitor that reloads after every cycle, with plain count
threshold 2 and the saturated window `[up, up, down]`, which does not
trigger. -/
def healthyWithDown : AbstractMonitor :=
  { Name := "web", ComponentID := 5, HistorySize := 3, ThresholdCount := 2, Resync := 1,
    history := [true, true, false], currentStatus := 1 }

/-! ## Basic facts -/

theorem incidentsSent_append (a b : List Action) :
    incidentsSent (a ++ b) = incidentsSent a ++ incidentsSent b := by
  induction a with
  | nil => rfl
  | cons x xs ih => cases x <;> simp [incidentsSent, ih]

theorem statusCalls_append (a b : List Action) :
    statusCalls (a ++ b) = statusCalls a ++ statusCalls b := by
  induction a with
  | nil => rfl
  | cons x xs ih => cases x <;> simp [statusCalls, ih]

/-- With no down entry every flag keeps its initial value `false`. -/
theorem triggerFlags_zero (mon : AbstractMonitor) (t : Int) :
    triggerFlags mon 0 t = {} := by
  simp [triggerFlags]

/-- What `AnalyseData` does on a window that is not saturated. -/
theorem AnalyseData_unsaturated (api : Api) (mon : AbstractMonitor)
    (hsat : (mon.history.length : Int) ≠ mon.HistorySize) :
    AnalyseData api mon = (recount mon, reportAvailability mon) := by
  have h : ((recount mon).history.length : Int) ≠ (recount mon).HistorySize := hsat
  simp only [AnalyseData, h, ne_eq, not_false_eq_true, if_true]
  rfl

/-- What `AnalyseData` does on a saturated window that triggers. -/
theorem AnalyseData_fires (api : Api) (mon : AbstractMonitor)
    (hsat : (mon.history.length : Int) = mon.HistorySize)
    (hfire : (windowFlags mon).fires = true) :
    AnalyseData api mon =
      ((forceStatus api (windowFlags mon)
          (match mon.incident with
            | none => createIncident api (windowFlags mon) (recount mon)
            | some _ => (recount mon, [])).1).1,
       reportAvailability mon ++
        [Action.sendMetrics "incident count" mon.MetricsIncidentCount 1] ++
        (match mon.incident with
            | none => createIncident api (windowFlags mon) (recount mon)
            | some _ => (recount mon, [])).2 ++
        (forceStatus api (windowFlags mon)
          (match mon.incident with
            | none => createIncident api (windowFlags mon) (recount mon)
            | some _ => (recount mon, [])).1).2) := by
  have h : ((recount mon).history.length : Int) = (recount mon).HistorySize := hsat
  have hf : ((triggerFlags (recount mon) (mon.history.count false)
        (downPercent (mon.history.count false) (recount mon).history.length)).triggered ||
      (triggerFlags (recount mon) (mon.history.count false)
        (downPercent (mon.history.count false) (recount mon).history.length)).criticalTriggered ||
      (triggerFlags (recount mon) (mon.history.count false)
        (downPercent (mon.history.count false) (recount mon).history.length)).partialTriggered) =
      true := hfire
  simp only [AnalyseData, h, ne_eq, not_true_eq_false, if_false, hf, if_true]
  rfl

/-- What `AnalyseData` does on a saturated window that does not trigger. -/
theorem AnalyseData_quiet (api : Api) (mon : AbstractMonitor)
    (hsat : (mon.history.length : Int) = mon.HistorySize)
    (hquiet : (windowFlags mon).fires = false) :
    AnalyseData api mon =
      ((backToNormal api (recount mon)).1,
       reportAvailability mon ++ (backToNormal api (recount mon)).2) := by
  have h : ((recount mon).history.length : Int) = (recount mon).HistorySize := hsat
  have hf : ((triggerFlags (recount mon) (mon.history.count false)
        (downPercent (mon.history.count false) (recount mon).history.length)).triggered ||
      (triggerFlags (recount mon) (mon.history.count false)
        (downPercent (mon.history.count false) (recount mon).history.length)).criticalTriggered ||
      (triggerFlags (recount mon) (mon.history.count false)
        (downPercent (mon.history.count false) (recount mon).history.length)).partialTriggered) =
      false := hquiet
  simp only [AnalyseData, h, ne_eq, not_true_eq_false, if_false, hf, Bool.false_eq_true]
  rfl

theorem reportAvailability_sent (mon : AbstractMonitor) :
    incidentsSent (reportAvailability mon) = [] := by
  unfold reportAvailability
  split_ifs <;> rfl

theorem reportAvailability_calls (mon : AbstractMonitor) :
    statusCalls (reportAvailability mon) = [] := by
  unfold reportAvailability
  split_ifs <;> rfl

/-- C2. With all six thresholds 0, `Validate` sets `Threshold` to 100 and the
history size to 10; on the fully down window of that size the truncated
down-percent is 100, which is not `> 100`: no flag is set, no incident is
created or sent, and no number of down entries from 0 to 10 triggers. -/
theorem C2_default_threshold_never_fires :
    defaultAllDown.Threshold = 100 ∧ defaultAllDown.HistorySize = 10 ∧
    defaultAllDown.ThresholdCount = 0 ∧
    (defaultAllDown.history.length : Int) = defaultAllDown.HistorySize ∧
    defaultAllDown.history.count false = 10 ∧
    downPercent 10 10 = 100 ∧
    (windowFlags defaultAllDown).fires = false ∧
    (AnalyseData sampleApi defaultAllDown).1.incident = none ∧
    incidentsSent (AnalyseData sampleApi defaultAllDown).2 = [] ∧
    (∀ d ∈ List.range 11, (triggerFlags defaultAllDown d (downPercent d 10)).fires = false) := by
  decide

/-! ## Threshold normalisation in Validate -/

theorem validHistorySize_pos (mon : AbstractMonitor) : 1 ≤ validHistorySize mon := by
  unfold validHistorySize DefaultHistorySize
  split_ifs <;> omega

theorem clampPercent_range (threshold historySize : Int) (h : 0 ≤ historySize) :
    0 ≤ clampPercent threshold historySize ∧
    clampPercent threshold historySize ≤ historySize := by
  unfold clampPercent
  split_ifs <;> omega

/-- The configuration fields written by `Validate`, field by field. -/
theorem Validate_fields (fixedErr investigatingErr : Option String) (mon : AbstractMonitor) :
    (Validate fixedErr investigatingErr mon).1.HistorySize = validHistorySize mon ∧
    (Validate fixedErr investigatingErr mon).1.CriticalThreshold =
      clampPercent mon.CriticalThreshold (validHistorySize mon) ∧
    (Validate fixedErr investigatingErr mon).1.PartialThreshold =
      clampPercent mon.PartialThreshold (validHistorySize mon) ∧
    (Validate fixedErr investigatingErr mon).1.Threshold =
      (if clampPercent mon.Threshold (validHistorySize mon) = 0 ∧
          clampPercent mon.CriticalThreshold (validHistorySize mon) = 0 ∧
          clampPercent mon.PartialThreshold (validHistorySize mon) = 0 ∧
          mon.ThresholdCount = 0 ∧ mon.CriticalThresholdCount = 0 ∧
          mon.PartialThresholdCount = 0
        then 100 else clampPercent mon.Threshold (validHistorySize mon)) :=
  ⟨rfl, rfl, rfl, rfl⟩

/-- C3, refuted as stated: for the configuration with no threshold set,
`Validate` leaves `Threshold = 100` above the history size 10; and count
thresholds outside `[0, HistorySize]` are returned as they were given. -/
theorem C3_counterexample :
    ¬ ((Validate none none {}).1.Threshold ≤ (Validate none none {}).1.HistorySize) ∧
    (Validate none none { HistorySize := 3, ThresholdCount := 7 }).1.HistorySize = 3 ∧
    ¬ ((Validate none none { HistorySize := 3, ThresholdCount := 7 }).1.ThresholdCount ≤ 3) ∧
    ¬ (0 ≤ (Validate none none { HistorySize := 3, CriticalThresholdCount := -1 }).1.CriticalThresholdCount) ∧
    ¬ ((Validate none none { HistorySize := 3, PartialThresholdCount := 7 }).1.PartialThresholdCount ≤ 3) := by
  decide

theorem clampPercent_eq (threshold historySize : Int) :
    clampPercent threshold historySize =
      (if threshold ≤ 0 then 0 else min threshold historySize) := by
  unfold clampPercent
  split_ifs <;> omega

/-- C3, amended.  After `Validate` the history size is the configured one,
or 10 when that is not positive, so at least 1.  `CriticalThreshold` and
`PartialThreshold` are 0 when configured at most 0 and otherwise the smaller
of the configured value and the history size, so they lie in
`[0, HistorySize]`.  When the three percent thresholds are configured at
most 0 and the three count thresholds are 0, `Threshold` is the default 100;
in every other case `Threshold` is clamped like the other two percent
thresholds and lies in `[0, HistorySize]`.  The three count thresholds are
returned unchanged. -/
theorem C3_thresholds_after_validate (fixedErr investigatingErr : Option String)
    (mon : AbstractMonitor) :
    ((Validate fixedErr investigatingErr mon).1.HistorySize =
        (if mon.HistorySize ≤ 0 then 10 else mon.HistorySize) ∧
      1 ≤ (Validate fixedErr investigatingErr mon).1.HistorySize) ∧
    ((Validate fixedErr investigatingErr mon).1.CriticalThreshold =
        (if mon.CriticalThreshold ≤ 0 then 0
         else min mon.CriticalThreshold (Validate fixedErr investigatingErr mon).1.HistorySize) ∧
      0 ≤ (Validate fixedErr investigatingErr mon).1.CriticalThreshold ∧
      (Validate fixedErr investigatingErr mon).1.CriticalThreshold ≤
        (Validate fixedErr investigatingErr mon).1.HistorySize) ∧
    ((Validate fixedErr investigatingErr mon).1.PartialThreshold =
        (if mon.PartialThreshold ≤ 0 then 0
         else min mon.PartialThreshold (Validate fixedErr investigatingErr mon).1.HistorySize) ∧
      0 ≤ (Validate fixedErr investigatingErr mon).1.PartialThreshold ∧
      (Validate fixedErr investigatingErr mon).1.PartialThreshold ≤
        (Validate fixedErr investigatingErr mon).1.HistorySize) ∧
    ((mon.Threshold ≤ 0 ∧ mon.CriticalThreshold ≤ 0 ∧ mon.PartialThreshold ≤ 0 ∧
        mon.ThresholdCount = 0 ∧ mon.CriticalThresholdCount = 0 ∧
        mon.PartialThresholdCount = 0) →
      (Validate fixedErr investigatingErr mon).1.Threshold = 100) ∧
    (¬ (mon.Threshold ≤ 0 ∧ mon.CriticalThreshold ≤ 0 ∧ mon.PartialThreshold ≤ 0 ∧
        mon.ThresholdCount = 0 ∧ mon.CriticalThresholdCount = 0 ∧
        mon.PartialThresholdCount = 0) →
      (Validate fixedErr investigatingErr mon).1.Threshold =
        (if mon.Threshold ≤ 0 then 0
         else min mon.Threshold (Validate fixedErr investigatingErr mon).1.HistorySize) ∧
      0 ≤ (Validate fixedErr investigatingErr mon).1.Threshold ∧
      (Validate fixedErr investigatingErr mon).1.Threshold ≤
        (Validate fixedErr investigatingErr mon).1.HistorySize) ∧
    (Validate fixedErr investigatingErr mon).1.ThresholdCount = mon.ThresholdCount ∧
    (Validate fixedErr investigatingErr mon).1.CriticalThresholdCount =
      mon.CriticalThresholdCount ∧
    (Validate fixedErr investigatingErr mon).1.PartialThresholdCount =
      mon.PartialThresholdCount := by
  obtain ⟨hH, hC, hP, hT⟩ := Validate_fields fixedErr investigatingErr mon
  have hpos := validHistorySize_pos mon
  have h0 : 0 ≤ validHistorySize mon := by omega
  have hc := clampPercent_range mon.CriticalThreshold _ h0
  have hp := clampPercent_range mon.PartialThreshold _ h0
  have ht := clampPercent_range mon.Threshold _ h0
  have ec := clampPercent_eq mon.CriticalThreshold (validHistorySize mon)
  have ep := clampPercent_eq mon.PartialThreshold (validHistorySize mon)
  have et := clampPercent_eq mon.Threshold (validHistorySize mon)
  have zc : clampPercent mon.CriticalThreshold (validHistorySize mon) = 0 ↔
      mon.CriticalThreshold ≤ 0 := by
    rw [ec]; split_ifs <;> omega
  have zp : clampPercent mon.PartialThreshold (validHistorySize mon) = 0 ↔
      mon.PartialThreshold ≤ 0 := by
    rw [ep]; split_ifs <;> omega
  have zt : clampPercent mon.Threshold (validHistorySize mon) = 0 ↔ mon.Threshold ≤ 0 := by
    rw [et]; split_ifs <;> omega
  refine ⟨⟨?_, ?_⟩, ⟨?_, ?_, ?_⟩, ⟨?_, ?_, ?_⟩, ?_, ?_, rfl, rfl, rfl⟩
  · rw [hH]; rfl
  · rw [hH]; exact hpos
  · rw [hC, hH]; exact ec
  · rw [hC]; exact hc.1
  · rw [hC, hH]; exact hc.2
  · rw [hP, hH]; exact ep
  · rw [hP]; exact hp.1
  · rw [hP, hH]; exact hp.2
  · intro hall
    rw [hT]
    have hcond : clampPercent mon.Threshold (validHistorySize mon) = 0 ∧
        clampPercent mon.CriticalThreshold (validHistorySize mon) = 0 ∧
        clampPercent mon.PartialThreshold (validHistorySize mon) = 0 ∧
        mon.ThresholdCount = 0 ∧ mon.CriticalThresholdCount = 0 ∧
        mon.PartialThresholdCount = 0 :=
      ⟨zt.mpr hall.1, zc.mpr hall.2.1, zp.mpr hall.2.2.1, hall.2.2.2⟩
    rw [if_pos hcond]
  · intro hnot
    rw [hT, hH]
    have hcond : ¬ (clampPercent mon.Threshold (validHistorySize mon) = 0 ∧
        clampPercent mon.CriticalThreshold (validHistorySize mon) = 0 ∧
        clampPercent mon.PartialThreshold (validHistorySize mon) = 0 ∧
        mon.ThresholdCount = 0 ∧ mon.CriticalThresholdCount = 0 ∧
        mon.PartialThresholdCount = 0) := by
      intro h
      exact hnot ⟨zt.mp h.1, zc.mp h.2.1, zp.mp h.2.2.1, h.2.2.2⟩
    rw [if_neg hcond]
    exact ⟨et, ht.1, ht.2⟩

/-! ## The partial leg -/

/-- C4. At `partialBoth` the configuration is a fixed point of `Validate`'s
threshold normalisation, the plain and critical legs do not trigger, and one
down entry is below `PartialThresholdCount = 3`; the partial flag is set all
the same, by the percent test `33 > 1`, and an incident with status 3 is
created. -/
theorem C4_partial_percent_fires_below_count :
    (Validate none none partialBoth).1.PartialThresholdCount = 3 ∧
    (Validate none none partialBoth).1.PartialThreshold = 1 ∧
    (Validate none none partialBoth).1.HistorySize = 3 ∧
    (partialBoth.history.length : Int) = partialBoth.HistorySize ∧
    partialBoth.history.count false = 1 ∧
    downPercent 1 3 = 33 ∧
    (windowFlags partialBoth).triggered = false ∧
    (windowFlags partialBoth).criticalTriggered = false ∧
    (windowFlags partialBoth).partialTriggered = true ∧
    incidentsSent (AnalyseData sampleApi partialBoth).2 =
      [{ Name := "down", Message := "investigating", ComponentID := 5, Notify := true,
         ComponentStatus := 3, State := IncidentState.investigating }] := by
  decide

/-! ## Incident lifecycle -/

theorem forceStatus_incident (api : Api) (f : Trigger) (mon : AbstractMonitor) :
    (forceStatus api f mon).1.incident = mon.incident := by
  unfold forceStatus
  dsimp only
  split_ifs <;> rfl

theorem forceStatus_sent (api : Api) (f : Trigger) (mon : AbstractMonitor) :
    incidentsSent (forceStatus api f mon).2 = [] := by
  unfold forceStatus
  dsimp only
  split_ifs <;> rfl

/-- C5. On a saturated window on which the classifier triggers while no
incident is tracked, `AnalyseData` hands exactly one incident to `Send`: it
has notify set, the monitor's component id, state INVESTIGATING and desired
status 3 when the trigger is partial, 4 otherwise; afterwards the incident
is tracked, whatever `Send` reported. -/
theorem C5_incident_created (api : Api) (mon : AbstractMonitor)
    (hsat : (mon.history.length : Int) = mon.HistorySize)
    (hfire : (windowFlags mon).fires = true)
    (hnone : mon.incident = none) :
    ∃ inc : Incident,
      incidentsSent (AnalyseData api mon).2 = [inc] ∧
      inc.Notify = true ∧
      inc.ComponentID = mon.ComponentID ∧
      inc.State = IncidentState.investigating ∧
      inc.ComponentStatus = (if (windowFlags mon).partialTriggered then 3 else 4) ∧
      (AnalyseData api mon).1.incident = some (api.send inc).1 := by
  rw [AnalyseData_fires api mon hsat hfire]
  simp only [hnone, forceStatus_incident, incidentsSent_append,
    forceStatus_sent, reportAvailability_sent]
  refine ⟨_, ?_, ?_, ?_, ?_, ?_, rfl⟩ <;> simp [createIncident, incidentsSent,
    Incident.SetInvestigating, recount]

/-- C5 at the two scenarios of the specification: scenario A (history size 3,
plain percent 50, window `[down, down, up]`) creates an incident with status
4, scenario C (critical count 2, partial count 1, one down of three) one with
status 3; `sampleApi` reports a send failure in both. -/
theorem C5_incident_created_witness :
    (∃ inc : Incident,
      incidentsSent (AnalyseData sampleApi scenarioA).2 = [inc] ∧
      inc.Notify = true ∧ inc.ComponentID = 5 ∧
      inc.State = IncidentState.investigating ∧ inc.ComponentStatus = 4 ∧
      (AnalyseData sampleApi scenarioA).1.incident = some (sampleApi.send inc).1 ∧
      (sampleApi.send inc).2 = true) ∧
    (∃ inc : Incident,
      incidentsSent (AnalyseData sampleApi scenarioC).2 = [inc] ∧
      inc.Notify = true ∧ inc.ComponentID = 5 ∧
      inc.State = IncidentState.investigating ∧ inc.ComponentStatus = 3 ∧
      (AnalyseData sampleApi scenarioC).1.incident = some (sampleApi.send inc).1 ∧
      (sampleApi.send inc).2 = true) := by
  constructor
  · obtain ⟨inc, h1, h2, h3, h4, h5, h6⟩ :=
      C5_incident_created sampleApi scenarioA (by decide) (by decide) (by decide)
    have hp : (windowFlags scenarioA).partialTriggered = false := by decide
    rw [hp] at h5
    exact ⟨inc, h1, h2, h3, h4, by simpa using h5, h6, rfl⟩
  · obtain ⟨inc, h1, h2, h3, h4, h5, h6⟩ :=
      C5_incident_created sampleApi scenarioC (by decide) (by decide) (by decide)
    have hp : (windowFlags scenarioC).partialTriggered = true := by decide
    rw [hp] at h5
    exact ⟨inc, h1, h2, h3, h4, by simpa using h5, h6, rfl⟩

/-- C6. On a saturated window on which the classifier does not trigger
while an incident is tracked, `AnalyseData` hands that incident to `Send`
once, re-rendered and in state FIXED, issues no status call, and ends with
no incident tracked, an empty failure reason and cached status 1; the result
of `Send` plays no part. -/
theorem C6_incident_resolved (api : Api) (mon : AbstractMonitor) (inc : Incident)
    (hsat : (mon.history.length : Int) = mon.HistorySize)
    (hquiet : (windowFlags mon).fires = false)
    (hinc : mon.incident = some inc) :
    incidentsSent (AnalyseData api mon).2 =
      [{ inc with
          Name := (api.fixedTpl (recount mon)).1
          Message := (api.fixedTpl (recount mon)).2
          State := IncidentState.fixed }] ∧
    statusCalls (AnalyseData api mon).2 = [] ∧
    (AnalyseData api mon).1.incident = none ∧
    (AnalyseData api mon).1.lastFailReason = "" ∧
    (AnalyseData api mon).1.currentStatus = 1 := by
  rw [AnalyseData_quiet api mon hsat hquiet]
  have hb : backToNormal api (recount mon) =
      ({ recount mon with lastFailReason := "", incident := none, currentStatus := 1 },
       [Action.incidentSend { inc with
          Name := (api.fixedTpl (recount mon)).1
          Message := (api.fixedTpl (recount mon)).2
          State := IncidentState.fixed }]) := by
    simp [backToNormal, recount, hinc, Incident.SetFixed]
  simp [hb, incidentsSent_append, statusCalls_append, reportAvailability_sent,
    reportAvailability_calls, incidentsSent, statusCalls]

/-- C6 at scenario B: the incident of scenario A is sent in state FIXED
and dropped, although `sampleApi` reports a send failure. -/
theorem C6_incident_resolved_witness :
    incidentsSent (AnalyseData sampleApi scenarioB).2 =
      [{ openIncident with
          Name := (sampleApi.fixedTpl (recount scenarioB)).1
          Message := (sampleApi.fixedTpl (recount scenarioB)).2
          State := IncidentState.fixed }] ∧
    statusCalls (AnalyseData sampleApi scenarioB).2 = [] ∧
    (AnalyseData sampleApi scenarioB).1.incident = none ∧
    (AnalyseData sampleApi scenarioB).1.lastFailReason = "" ∧
    (AnalyseData sampleApi scenarioB).1.currentStatus = 1 :=
  C6_incident_resolved sampleApi scenarioB openIncident (by decide) (by decide) rfl

/-- C9. Whenever the classifier triggers on the window while an incident is
tracked, `AnalyseData` hands no incident to `Send` and the tracked incident
is the same record afterwards: id, subject, body, notify flag, desired
status and lifecycle state are unchanged. -/
theorem C9_no_second_incident (api : Api) (mon : AbstractMonitor) (inc : Incident)
    (hfire : (windowFlags mon).fires = true)
    (hinc : mon.incident = some inc) :
    incidentsSent (AnalyseData api mon).2 = [] ∧
    (AnalyseData api mon).1.incident = some inc := by
  by_cases hsat : (mon.history.length : Int) = mon.HistorySize
  · rw [AnalyseData_fires api mon hsat hfire]
    simp only [hinc, forceStatus_incident, incidentsSent_append,
      forceStatus_sent, reportAvailability_sent]
    simp [incidentsSent, recount, hinc]
  · rw [AnalyseData_unsaturated api mon hsat]
    exact ⟨reportAvailability_sent mon, hinc⟩

/-- C9 at `stillDown`: the window of scenario A still triggers and its
incident stays as it is. -/
theorem C9_no_second_incident_witness :
    incidentsSent (AnalyseData sampleApi stillDown).2 = [] ∧
    (AnalyseData sampleApi stillDown).1.incident = some openIncident :=
  C9_no_second_incident sampleApi stillDown openIncident (by decide) rfl

/-! ## The history window -/

theorem probeCount_append (a b : List Action) :
    probeCount (a ++ b) = probeCount a + probeCount b := by
  induction a with
  | nil => simp [probeCount]
  | cons x xs ih => cases x <;> simp [probeCount, ih]; omega

/-- The window written by lines 325-328 for a history size `N ≥ 1`: no
fault, and the last `min N (len + 1)` elements of the old window followed by
the new outcome. -/
theorem recordOutcome_eq (N : Nat) (hN : 1 ≤ N) (w : List Bool) (b : Bool) :
    recordOutcome (N : Int) w b = some (lastN (min N (w.length + 1)) (w ++ [b])) := by
  unfold recordOutcome lastN sliceFrom
  by_cases h : N ≤ w.length
  · have h1 : ((w.length : Int) ≥ (N : Int)) := by exact_mod_cast h
    have h2 : (0 : Int) ≤ (w.length : Int) - ((N : Int) - 1) ∧
        (w.length : Int) - ((N : Int) - 1) ≤ (w.length : Int) := by omega
    have h3 : ((w.length : Int) - ((N : Int) - 1)).toNat = w.length + 1 - N := by omega
    have h4 : min N (w.length + 1) = N := by omega
    simp only [h1, if_true, h2, and_self, Option.map_some', h3, h4, List.length_append,
      List.length_singleton]
    rw [List.drop_append_of_le_length (by omega)]
  · have h1 : ¬ ((w.length : Int) ≥ (N : Int)) := by
      intro hc
      exact h (by exact_mod_cast hc)
    have h4 : min N (w.length + 1) = w.length + 1 := by omega
    simp [h1, h4]

theorem lastN_length {α : Type} (k : Nat) (l : List α) :
    (lastN k l).length = min k l.length := by
  unfold lastN
  rw [List.length_drop]
  omega

theorem SameWindow.trans {a b c : AbstractMonitor} (h1 : SameWindow a b) (h2 : SameWindow b c) :
    SameWindow a c :=
  ⟨h1.1.trans h2.1, h1.2.1.trans h2.2.1, h1.2.2.1.trans h2.2.2.1, h1.2.2.2.trans h2.2.2.2⟩

theorem forceStatus_window (api : Api) (f : Trigger) (mon : AbstractMonitor) :
    SameWindow (forceStatus api f mon).1 mon ∧ probeCount (forceStatus api f mon).2 = 0 := by
  unfold forceStatus SameWindow
  dsimp only
  split_ifs <;> simp [probeCount]

theorem createIncident_window (api : Api) (f : Trigger) (mon : AbstractMonitor) :
    SameWindow (createIncident api f mon).1 mon ∧
      probeCount (createIncident api f mon).2 = 0 := by
  simp [createIncident, SameWindow, probeCount]

theorem backToNormal_window (api : Api) (mon : AbstractMonitor) :
    SameWindow (backToNormal api mon).1 mon ∧ probeCount (backToNormal api mon).2 = 0 := by
  unfold backToNormal SameWindow
  cases mon.incident with
  | none => dsimp only; split_ifs <;> simp [probeCount]
  | some inc => simp [probeCount]

theorem reportAvailability_probes (mon : AbstractMonitor) :
    probeCount (reportAvailability mon) = 0 := by
  unfold reportAvailability
  split_ifs <;> rfl

/-- The window is untouched by `AnalyseData`, which does not probe. -/
theorem AnalyseData_window (api : Api) (mon : AbstractMonitor) :
    SameWindow (AnalyseData api mon).1 mon ∧ probeCount (AnalyseData api mon).2 = 0 := by
  have hr : SameWindow (recount mon) mon := ⟨rfl, rfl, rfl, rfl⟩
  by_cases hsat : (mon.history.length : Int) = mon.HistorySize
  · cases hf : (windowFlags mon).fires with
    | true =>
      rw [AnalyseData_fires api mon hsat hf]
      have h1 : SameWindow (match mon.incident with
          | none => createIncident api (windowFlags mon) (recount mon)
          | some _ => (recount mon, [])).1 mon ∧
          probeCount (match mon.incident with
          | none => createIncident api (windowFlags mon) (recount mon)
          | some _ => (recount mon, [])).2 = 0 := by
        cases mon.incident with
        | none =>
          exact ⟨(createIncident_window api _ _).1.trans hr, (createIncident_window api _ _).2⟩
        | some inc => exact ⟨hr, rfl⟩
      refine ⟨(forceStatus_window api _ _).1.trans h1.1, ?_⟩
      simp [probeCount_append, reportAvailability_probes, probeCount, h1.2,
        (forceStatus_window api _ _).2]
    | false =>
      rw [AnalyseData_quiet api mon hsat hf]
      refine ⟨(backToNormal_window api _).1.trans hr, ?_⟩
      simp [probeCount_append, reportAvailability_probes, (backToNormal_window api _).2]
  · rw [AnalyseData_unsaturated api mon hsat]
    exact ⟨hr, reportAvailability_probes mon⟩

theorem resyncStep_window (api : Api) (mon : AbstractMonitor) :
    SameWindow (resyncStep api mon).1 mon ∧ probeCount (resyncStep api mon).2 = 0 := by
  unfold resyncStep
  dsimp only
  split_ifs <;> simp [SameWindow, ReloadCachetData, probeCount]

theorem afterRecord_window (api : Api) (probe : ProbeResult) (mon : AbstractMonitor) :
    SameWindow (afterRecord api probe mon).1 mon ∧
      probeCount (afterRecord api probe mon).2 = 0 := by
  unfold afterRecord
  dsimp only
  refine ⟨(resyncStep_window api _).1.trans (AnalyseData_window api mon).1, ?_⟩
  simp only [probeCount_append, (resyncStep_window api _).2, (AnalyseData_window api _).2]
  unfold triggerShellHook
  split_ifs <;> simp [probeCount]

/-- A disabled monitor skips the whole tick. -/
theorem tick_disabled (api : Api) (probe : ProbeResult) (mon : AbstractMonitor)
    (hen : mon.Enabled = false) : tick api probe mon = some (mon, []) := by
  simp [tick, hen]

/-- An enabled tick probes once and stores the window given by
`recordOutcome`. -/
theorem tick_enabled (api : Api) (probe : ProbeResult) (mon : AbstractMonitor)
    (h : List Bool) (hen : mon.Enabled = true)
    (hrec : recordOutcome mon.HistorySize mon.history probe.isUp = some h) :
    ∃ mon1 acts, tick api probe mon = some (mon1, acts) ∧ mon1.history = h ∧
      mon1.HistorySize = mon.HistorySize ∧ probeCount acts = 1 := by
  have hs : (storeFailReason probe mon).HistorySize = mon.HistorySize ∧
      (storeFailReason probe mon).history = mon.history := by
    unfold storeFailReason
    cases probe.failReason <;> exact ⟨rfl, rfl⟩
  have hrec2 : recordOutcome (storeFailReason probe mon).HistorySize
      (storeFailReason probe mon).history probe.isUp = some h := by
    rw [hs.1, hs.2]; exact hrec
  simp only [tick, hen, Bool.not_true, Bool.false_eq_true, if_false, hrec2]
  refine ⟨_, _, rfl, ?_, ?_, ?_⟩
  · rw [(afterRecord_window api probe _).1.1]
  · rw [(afterRecord_window api probe _).1.2.1]
    exact hs.1
  · simp [probeCount, (afterRecord_window api probe _).2]

/-- C8. For a history size `N ≥ 1`, an enabled tick whose probe returns `b`
does not fault and leaves as window the last `min N (len + 1)` elements of
the old window followed by `b`; when the old window is shorter than `N`
nothing is dropped. -/
theorem C8_window_after_tick (api : Api) (probe : ProbeResult) (mon : AbstractMonitor)
    (N : Nat) (hN : 1 ≤ N) (hsize : mon.HistorySize = (N : Int))
    (hen : mon.Enabled = true) :
    ∃ mon1 acts, tick api probe mon = some (mon1, acts) ∧
      mon1.history = lastN (min N (mon.history.length + 1)) (mon.history ++ [probe.isUp]) ∧
      (mon.history.length < N → mon1.history = mon.history ++ [probe.isUp]) := by
  have hrec := recordOutcome_eq N hN mon.history probe.isUp
  rw [← hsize] at hrec
  obtain ⟨mon1, acts, h1, h2, _, _⟩ := tick_enabled api probe mon _ hen hrec
  refine ⟨mon1, acts, h1, h2, ?_⟩
  intro hlt
  rw [h2]
  have h4 : min N (mon.history.length + 1) = mon.history.length + 1 := by omega
  simp [lastN, h4]

/-- The length of the window over a run of ticks, for a history size
`N ≥ 1` and a starting window no longer than `N`. -/
theorem runTicks_length (N : Nat) (hN : 1 ≤ N) (inputs : List (Api × ProbeResult)) :
    ∀ mon : AbstractMonitor, mon.HistorySize = (N : Int) → mon.history.length ≤ N →
      ∃ mon1 acts, runTicks mon inputs = some (mon1, acts) ∧
        mon1.history.length = min N (mon.history.length + probeCount acts) := by
  induction inputs with
  | nil =>
    intro mon _ hlen
    exact ⟨mon, [], rfl, by simp [probeCount]; omega⟩
  | cons x rest ih =>
    intro mon hsize hlen
    obtain ⟨api, probe⟩ := x
    cases hen : mon.Enabled with
    | false =>
      obtain ⟨mon2, acts2, hrun, hl⟩ := ih mon hsize hlen
      refine ⟨mon2, [] ++ acts2, ?_, ?_⟩
      · simp [runTicks, tick_disabled api probe mon hen, hrun]
      · simpa using hl
    | true =>
      have hrec := recordOutcome_eq N hN mon.history probe.isUp
      rw [← hsize] at hrec
      obtain ⟨mon1, acts1, h1, h2, h3, h4⟩ := tick_enabled api probe mon _ hen hrec
      have hlen1 : mon1.history.length = min N (mon.history.length + 1) := by
        rw [h2, lastN_length]
        simp
      obtain ⟨mon2, acts2, hrun, hl⟩ := ih mon1 (h3.trans hsize) (by omega)
      refine ⟨mon2, acts1 ++ acts2, ?_, ?_⟩
      · simp [runTicks, h1, hrun]
      · rw [hl, hlen1, probeCount_append, h4]
        omega

/-- C7. For a history size `N ≥ 1` and a starting window of length at most
`N`, every prefix of a run of ticks ends without fault in a window of length
`min N (len + recorded)`, where `recorded` counts the outcomes recorded so
far: the length never exceeds `N`, and it is exactly `N` as soon as the
window has received `N` outcomes in total, and from then on.  `Init` records
one outcome, so the count starts at 1 after it. -/
theorem C7_window_length (mon : AbstractMonitor) (inputs : List (Api × ProbeResult))
    (N : Nat) (hN : 1 ≤ N) (hsize : mon.HistorySize = (N : Int))
    (hlen : mon.history.length ≤ N) :
    (∀ api : Api, (Init api mon).1.1.history.length = mon.history.length + 1) ∧
    ∀ k : Nat, ∃ mon1 acts, runTicks mon (inputs.take k) = some (mon1, acts) ∧
      mon1.history.length = min N (mon.history.length + probeCount acts) ∧
      mon1.history.length ≤ N ∧
      (N ≤ mon.history.length + probeCount acts → mon1.history.length = N) := by
  constructor
  · intro api
    simp [Init, ReloadCachetData]
  · intro k
    obtain ⟨mon1, acts, hrun, hl⟩ := runTicks_length N hN (inputs.take k) mon hsize hlen
    exact ⟨mon1, acts, hrun, hl, by omega, by omega⟩

/-- C7 from start-up: after `Init` the window holds one outcome; over four
cycles with history size 3 every prefix of the run ends in a window of
length `min 3 (1 + recorded)`. -/
theorem C7_window_length_witness :
    (∀ api : Api, (Init api (Init sampleApi freshMonitor).1.1).1.1.history.length =
      (Init sampleApi freshMonitor).1.1.history.length + 1) ∧
    ∀ k : Nat, ∃ mon1 acts,
      runTicks (Init sampleApi freshMonitor).1.1 (fourCycles.take k) = some (mon1, acts) ∧
      mon1.history.length =
        min 3 ((Init sampleApi freshMonitor).1.1.history.length + probeCount acts) ∧
      mon1.history.length ≤ 3 ∧
      (3 ≤ (Init sampleApi freshMonitor).1.1.history.length + probeCount acts →
        mon1.history.length = 3) :=
  C7_window_length (Init sampleApi freshMonitor).1.1 fourCycles 3 (by decide) rfl (by decide)

/-- C8 at the full window `[up, down, up]` of scenario C and a down probe:
the oldest entry is dropped. -/
theorem C8_window_after_tick_witness :
    ∃ mon1 acts, tick sampleApi { isUp := false } scenarioC = some (mon1, acts) ∧
      mon1.history = lastN (min 3 (scenarioC.history.length + 1))
        (scenarioC.history ++ [false]) ∧
      (scenarioC.history.length < 3 → mon1.history = scenarioC.history ++ [false]) :=
  C8_window_after_tick sampleApi { isUp := false } scenarioC 3 (by decide) rfl rfl

/-! ## Runs of up outcomes -/

theorem recordOutcome_mem (historySize : Int) (w : List Bool) (b : Bool) (h : List Bool)
    (hrec : recordOutcome historySize w b = some h) : ∀ x ∈ h, x ∈ w ∨ x = b := by
  unfold recordOutcome sliceFrom at hrec
  dsimp only at hrec
  intro x hx
  split_ifs at hrec with h1 h2
  · simp only [Option.map_some', Option.some.injEq] at hrec
    rw [← hrec] at hx
    rcases List.mem_append.mp hx with hx | hx
    · exact Or.inl (List.mem_of_mem_drop hx)
    · exact Or.inr (by simpa using hx)
  · simp at hrec
  · simp only [Option.map_some', Option.some.injEq] at hrec
    rw [← hrec] at hx
    rcases List.mem_append.mp hx with hx | hx
    · exact Or.inl hx
    · exact Or.inr (by simpa using hx)

/-- On a window without a down entry, with cached status up and no incident
tracked, `AnalyseData` only recounts and reports availability. -/
theorem AnalyseData_all_up (api : Api) (mon : AbstractMonitor)
    (hstatus : mon.currentStatus = 1) (hinc : mon.incident = none)
    (hwin : ∀ b ∈ mon.history, b = true) :
    AnalyseData api mon = (recount mon, reportAvailability mon) := by
  have h0 : mon.history.count false = 0 := by
    rw [List.count_eq_zero]
    intro hm
    exact Bool.noConfusion (hwin false hm)
  by_cases hsat : (mon.history.length : Int) = mon.HistorySize
  · have hq : (windowFlags mon).fires = false := by
      simp [windowFlags, h0, triggerFlags_zero, Trigger.fires]
    rw [AnalyseData_quiet api mon hsat hq]
    have hb : backToNormal api (recount mon) = (recount mon, []) := by
      simp [backToNormal, recount, hinc, isUp, hstatus]
    rw [hb]
    simp
  · exact AnalyseData_unsaturated api mon hsat

/-- One cycle after the outcome `up` was recorded on a healthy monitor. -/
theorem afterRecord_all_up (api : Api) (probe : ProbeResult) (mon : AbstractMonitor)
    (hstatus : mon.currentStatus = 1) (hinc : mon.incident = none)
    (hwin : ∀ b ∈ mon.history, b = true) (hup : probe.isUp = true)
    (hquiet : mon.Resync ≤ 0 ∨ quietReload api mon.ComponentID) :
    incidentsSent (afterRecord api probe mon).2 = [] ∧
    statusCalls (afterRecord api probe mon).2 = [] ∧
    (afterRecord api probe mon).1.currentStatus = 1 ∧
    (afterRecord api probe mon).1.incident = none := by
  unfold afterRecord
  rw [AnalyseData_all_up api mon hstatus hinc hwin]
  simp only [hup, Bool.not_true, Bool.false_eq_true, if_false, incidentsSent_append,
    statusCalls_append, reportAvailability_sent, reportAvailability_calls]
  have hres : incidentsSent (resyncStep api (recount mon)).2 = [] ∧
      statusCalls (resyncStep api (recount mon)).2 = [] ∧
      (resyncStep api (recount mon)).1.currentStatus = 1 ∧
      (resyncStep api (recount mon)).1.incident = none := by
    unfold resyncStep
    dsimp only
    split_ifs with h1 h2
    · have hq : quietReload api mon.ComponentID := by
        rcases hquiet with h | h
        · exact absurd h1 (by simp [recount]; omega)
        · exact h
      exact ⟨rfl, rfl, hq.1, hq.2⟩
    · exact ⟨rfl, rfl, hstatus, hinc⟩
    · exact ⟨rfl, rfl, hstatus, hinc⟩
  refine ⟨?_, ?_, hres.2.2.1, hres.2.2.2⟩
  · rw [hres.1]
    split_ifs <;> rfl
  · rw [hres.2.1]
    split_ifs <;> rfl

theorem storeFailReason_fields (probe : ProbeResult) (mon : AbstractMonitor) :
    (storeFailReason probe mon).currentStatus = mon.currentStatus ∧
    (storeFailReason probe mon).incident = mon.incident ∧
    (storeFailReason probe mon).history = mon.history ∧
    (storeFailReason probe mon).HistorySize = mon.HistorySize ∧
    (storeFailReason probe mon).Resync = mon.Resync ∧
    (storeFailReason probe mon).ComponentID = mon.ComponentID := by
  unfold storeFailReason
  cases probe.failReason <;> exact ⟨rfl, rfl, rfl, rfl, rfl, rfl⟩

/-- One tick with an up outcome on a healthy monitor whose window holds no
down entry: nothing is created or re-issued, and the monitor stays healthy. -/
theorem tick_all_up (api : Api) (probe : ProbeResult) (mon mon1 : AbstractMonitor)
    (acts : List Action)
    (hstatus : mon.currentStatus = 1) (hinc : mon.incident = none)
    (hwin : ∀ b ∈ mon.history, b = true) (hup : probe.isUp = true)
    (hquiet : mon.Resync ≤ 0 ∨ quietReload api mon.ComponentID)
    (ht : tick api probe mon = some (mon1, acts)) :
    incidentsSent acts = [] ∧ statusCalls acts = [] ∧
    mon1.currentStatus = 1 ∧ mon1.incident = none ∧ (∀ b ∈ mon1.history, b = true) ∧
    mon1.Resync = mon.Resync ∧ mon1.ComponentID = mon.ComponentID := by
  cases hen : mon.Enabled with
  | false =>
    rw [tick_disabled api probe mon hen] at ht
    simp only [Option.some.injEq, Prod.mk.injEq] at ht
    obtain ⟨h1, h2⟩ := ht
    subst h1 h2
    exact ⟨rfl, rfl, hstatus, hinc, hwin, rfl, rfl⟩
  | true =>
    obtain ⟨f1, f2, f3, f4, f5, f6⟩ := storeFailReason_fields probe mon
    simp only [tick, hen, Bool.not_true, Bool.false_eq_true, if_false] at ht
    cases hrec : recordOutcome (storeFailReason probe mon).HistorySize
        (storeFailReason probe mon).history probe.isUp with
    | none => simp [hrec] at ht
    | some h =>
      simp only [hrec, Option.some.injEq, Prod.mk.injEq] at ht
      obtain ⟨h1, h2⟩ := ht
      have hmem := recordOutcome_mem _ _ _ _ hrec
      have hwin2 : ∀ b ∈ h, b = true := by
        intro b hb
        rcases hmem b hb with hb | hb
        · exact hwin b (f3 ▸ hb)
        · rw [hb, hup]
      have hall := afterRecord_all_up api probe { storeFailReason probe mon with history := h }
        (by exact f1.trans hstatus) (by exact f2.trans hinc) hwin2 hup
        (by
          rcases hquiet with hq | hq
          · exact Or.inl (by show (storeFailReason probe mon).Resync ≤ 0; rw [f5]; exact hq)
          · exact Or.inr (by show quietReload api (storeFailReason probe mon).ComponentID
                             rw [f6]; exact hq))
      have hw := (afterRecord_window api probe { storeFailReason probe mon with history := h }).1
      subst h1 h2
      refine ⟨?_, ?_, hall.2.2.1, hall.2.2.2, ?_, ?_, ?_⟩
      · simpa [incidentsSent] using hall.1
      · simpa [statusCalls] using hall.2.1
      · rw [hw.1]; exact hwin2
      · rw [hw.2.2.1]; exact f5
      · rw [hw.2.2.2]; exact f6

/-- A run of ticks with up outcomes on a healthy monitor. -/
theorem runTicks_all_up (inputs : List (Api × ProbeResult)) :
    ∀ (mon mon1 : AbstractMonitor) (acts : List Action),
      mon.currentStatus = 1 → mon.incident = none → (∀ b ∈ mon.history, b = true) →
      (∀ x ∈ inputs, x.2.isUp = true) →
      (mon.Resync ≤ 0 ∨ ∀ x ∈ inputs, quietReload x.1 mon.ComponentID) →
      runTicks mon inputs = some (mon1, acts) →
      incidentsSent acts = [] ∧ statusCalls acts = [] ∧
        mon1.currentStatus = 1 ∧ mon1.incident = none := by
  induction inputs with
  | nil =>
    intro mon mon1 acts hstatus hinc _ _ _ hrun
    simp only [runTicks, Option.some.injEq, Prod.mk.injEq] at hrun
    obtain ⟨h1, h2⟩ := hrun
    subst h1 h2
    exact ⟨rfl, rfl, hstatus, hinc⟩
  | cons x rest ih =>
    intro mon mon1 acts hstatus hinc hwin hup hquiet hrun
    obtain ⟨api, probe⟩ := x
    cases ht : tick api probe mon with
    | none => simp [runTicks, ht] at hrun
    | some r =>
      obtain ⟨mon2, acts2⟩ := r
      cases hr : runTicks mon2 rest with
      | none => simp [runTicks, ht, hr] at hrun
      | some r2 =>
        obtain ⟨mon3, acts3⟩ := r2
        simp only [runTicks, ht, hr, Option.some.injEq, Prod.mk.injEq] at hrun
        obtain ⟨h1, h2⟩ := hrun
        have hq1 : mon.Resync ≤ 0 ∨ quietReload api mon.ComponentID := by
          rcases hquiet with hq | hq
          · exact Or.inl hq
          · exact Or.inr (hq (api, probe) (List.mem_cons_self _ _))
        obtain ⟨t1, t2, t3, t4, t5, t6, t7⟩ := tick_all_up api probe mon mon2 acts2 hstatus hinc
          hwin (hup (api, probe) (List.mem_cons_self _ _)) hq1 ht
        have hq2 : mon2.Resync ≤ 0 ∨ ∀ x ∈ rest, quietReload x.1 mon2.ComponentID := by
          rw [t6, t7]
          rcases hquiet with hq | hq
          · exact Or.inl hq
          · exact Or.inr (fun x hx => hq x (List.mem_cons_of_mem _ hx))
        obtain ⟨r1, r2, r3, r4⟩ := ih mon2 mon3 acts3 t3 t4 t5
          (fun x hx => hup x (List.mem_cons_of_mem _ hx)) hq2 hr
        subst h1 h2
        exact ⟨by rw [incidentsSent_append, t1, r1]; rfl,
          by rw [statusCalls_append, t2, r2]; rfl, r3, r4⟩

/-- With a history size of at least 1 a run of ticks never faults. -/
theorem runTicks_total (inputs : List (Api × ProbeResult)) :
    ∀ mon : AbstractMonitor, 1 ≤ mon.HistorySize → ∃ r, runTicks mon inputs = some r := by
  induction inputs with
  | nil => intro mon _; exact ⟨_, rfl⟩
  | cons x rest ih =>
    intro mon hN
    obtain ⟨api, probe⟩ := x
    have htick : ∃ mon1 acts, tick api probe mon = some (mon1, acts) ∧
        mon1.HistorySize = mon.HistorySize := by
      cases hen : mon.Enabled with
      | false => exact ⟨mon, [], tick_disabled api probe mon hen, rfl⟩
      | true =>
        have hrec := recordOutcome_eq mon.HistorySize.toNat (by omega) mon.history probe.isUp
        rw [Int.toNat_of_nonneg (by omega)] at hrec
        obtain ⟨mon1, acts1, h1, _, h3, _⟩ := tick_enabled api probe mon _ hen hrec
        exact ⟨mon1, acts1, h1, h3⟩
    obtain ⟨mon1, acts1, h1, h3⟩ := htick
    obtain ⟨r, hr⟩ := ih mon1 (by rw [h3]; exact hN)
    exact ⟨(r.1, acts1 ++ r.2), by simp [runTicks, h1, hr]⟩

/-- C10, refuted as stated.  (1) From start-up with history size 4 and count
threshold 2, two down cycles leave the window `[up, down, down]` unsaturated,
the cached status up and no incident tracked; one further cycle whose outcome
is up saturates the window and creates an incident.  (2) With resync after
every cycle and a remote status 4, two cycles with up outcomes issue a
set-status call. -/
theorem C10_counterexample :
    (∃ mon acts, runTicks (Init sampleApi countTwoOfFour).1.1
        [(sampleApi, { isUp := false }), (sampleApi, { isUp := false })] = some (mon, acts) ∧
      mon.currentStatus = 1 ∧ mon.incident = none ∧ mon.history = [true, false, false] ∧
      ∃ mon1 acts1, runTicks mon [(sampleApi, { isUp := true })] = some (mon1, acts1) ∧
        incidentsSent acts1 ≠ [] ∧ mon1.incident ≠ none) ∧
    (resyncEveryCycle.currentStatus = 1 ∧ resyncEveryCycle.incident = none ∧
      ∃ mon1 acts1, runTicks resyncEveryCycle
          [(driftApi, { isUp := true }), (driftApi, { isUp := true })] = some (mon1, acts1) ∧
        statusCalls acts1 = [1]) := by
  refine ⟨⟨_, _, rfl, by decide, by decide, by decide, _, _, rfl, by decide, by decide⟩,
    rfl, rfl, _, _, rfl, by decide⟩

/-! ## Before saturation, disabled ticks, slice bounds -/

/-- C17. On a window whose length differs from `HistorySize`, `AnalyseData`
only recounts: the resulting state is the recounted monitor, so the tracked
incident, the cached status and the failure reason are unchanged; no
incident is handed to `Send` and no set-status call is issued. -/
theorem C17_unsaturated_no_action (api : Api) (mon : AbstractMonitor)
    (hunsat : (mon.history.length : Int) ≠ mon.HistorySize) :
    (AnalyseData api mon).1 = recount mon ∧
    incidentsSent (AnalyseData api mon).2 = [] ∧
    statusCalls (AnalyseData api mon).2 = [] ∧
    (AnalyseData api mon).1.incident = mon.incident ∧
    (AnalyseData api mon).1.currentStatus = mon.currentStatus ∧
    (AnalyseData api mon).1.lastFailReason = mon.lastFailReason ∧
    (AnalyseData api mon).1.currentDownCount = ((mon.history.count false : Nat) : Int) ∧
    (AnalyseData api mon).1.currentUpCount = ((mon.history.count true : Nat) : Int) := by
  rw [AnalyseData_unsaturated api mon hunsat]
  exact ⟨rfl, reportAvailability_sent mon, reportAvailability_calls mon, rfl, rfl, rfl, rfl, rfl⟩

/-- C17 at a window of two down entries for history size 3, with every
threshold reached and an incident tracked. -/
theorem C17_unsaturated_no_action_witness :
    (AnalyseData sampleApi unsaturated).1 = recount unsaturated ∧
    incidentsSent (AnalyseData sampleApi unsaturated).2 = [] ∧
    statusCalls (AnalyseData sampleApi unsaturated).2 = [] ∧
    (AnalyseData sampleApi unsaturated).1.incident = unsaturated.incident ∧
    (AnalyseData sampleApi unsaturated).1.currentStatus = unsaturated.currentStatus ∧
    (AnalyseData sampleApi unsaturated).1.lastFailReason = unsaturated.lastFailReason ∧
    (AnalyseData sampleApi unsaturated).1.currentDownCount =
      ((unsaturated.history.count false : Nat) : Int) ∧
    (AnalyseData sampleApi unsaturated).1.currentUpCount =
      ((unsaturated.history.count true : Nat) : Int) :=
  C17_unsaturated_no_action sampleApi unsaturated (by decide)

/-- C19. A tick on a disabled monitor returns the monitor as it was (window,
counts, cached status, failure reason, incident and resync counter included)
and an empty trace: no probe, metric, incident, status, hook or reload call. -/
theorem C19_disabled_tick_is_noop (api : Api) (probe : ProbeResult) (mon : AbstractMonitor)
    (hdis : mon.Enabled = false) :
    tick api probe mon = some (mon, []) :=
  tick_disabled api probe mon hdis

/-- C19 at a disabled monitor whose window is down and whose probe fails. -/
theorem C19_disabled_tick_is_noop_witness :
    tick driftApi { isUp := false, lag := 40, failReason := some "refused" } disabledMonitor =
      some (disabledMonitor, []) :=
  C19_disabled_tick_is_noop driftApi { isUp := false, lag := 40, failReason := some "refused" }
    disabledMonitor rfl

/-- C20. `Validate` returns a history size of at least 1, the default 10
when the configured one is not positive.  For a history size `N ≥ 1` and a
window of any length `L ≥ N`, the start index `L - (N - 1)` of the re-slice
lies in `[0, L]`; the re-slice, the recording of an outcome and the whole
tick do not fault. -/
theorem C20_reslice_in_bounds (fixedErr investigatingErr : Option String)
    (api : Api) (probe : ProbeResult) (mon : AbstractMonitor) (w : List Bool) (b : Bool) :
    1 ≤ (Validate fixedErr investigatingErr mon).1.HistorySize ∧
    (mon.HistorySize ≤ 0 → (Validate fixedErr investigatingErr mon).1.HistorySize = 10) ∧
    (0 < mon.HistorySize →
      (Validate fixedErr investigatingErr mon).1.HistorySize = mon.HistorySize) ∧
    (∀ N : Int, 1 ≤ N →
      ((w.length : Int) ≥ N →
        0 ≤ (w.length : Int) - (N - 1) ∧ (w.length : Int) - (N - 1) ≤ (w.length : Int) ∧
        sliceFrom w ((w.length : Int) - (N - 1)) =
          some (w.drop ((w.length : Int) - (N - 1)).toNat)) ∧
      (∃ h, recordOutcome N w b = some h)) ∧
    (1 ≤ mon.HistorySize → ∃ r, tick api probe mon = some r) := by
  have hH := (Validate_fields fixedErr investigatingErr mon).1
  refine ⟨?_, ?_, ?_, ?_, ?_⟩
  · rw [hH]; exact validHistorySize_pos mon
  · intro h; rw [hH]; simp [validHistorySize, h, DefaultHistorySize]
  · intro h
    rw [hH]
    have : ¬ mon.HistorySize ≤ 0 := by omega
    simp [validHistorySize, this]
  · intro N hN
    refine ⟨?_, ?_⟩
    · intro hL
      have h2 : (0 : Int) ≤ (w.length : Int) - (N - 1) ∧
          (w.length : Int) - (N - 1) ≤ (w.length : Int) := by omega
      exact ⟨h2.1, h2.2, by simp [sliceFrom, h2]⟩
    · have hrec := recordOutcome_eq N.toNat (by omega) w b
      rw [Int.toNat_of_nonneg (by omega)] at hrec
      exact ⟨_, hrec⟩
  · intro hN
    obtain ⟨r, hr⟩ := runTicks_total [(api, probe)] mon hN
    cases ht : tick api probe mon with
    | none => simp [runTicks, ht] at hr
    | some r1 => exact ⟨r1, rfl⟩

/-- C20 at scenario C with a window of four entries, one more than the
history size 3. -/
theorem C20_reslice_in_bounds_witness :
    1 ≤ (Validate none none scenarioC).1.HistorySize ∧
    (scenarioC.HistorySize ≤ 0 → (Validate none none scenarioC).1.HistorySize = 10) ∧
    (0 < scenarioC.HistorySize →
      (Validate none none scenarioC).1.HistorySize = scenarioC.HistorySize) ∧
    (∀ N : Int, 1 ≤ N →
      ((([true, false, true, true] : List Bool).length : Int) ≥ N →
        0 ≤ (([true, false, true, true] : List Bool).length : Int) - (N - 1) ∧
        (([true, false, true, true] : List Bool).length : Int) - (N - 1) ≤
          (([true, false, true, true] : List Bool).length : Int) ∧
        sliceFrom [true, false, true, true]
            ((([true, false, true, true] : List Bool).length : Int) - (N - 1)) =
          some (([true, false, true, true] : List Bool).drop
            ((([true, false, true, true] : List Bool).length : Int) - (N - 1)).toNat)) ∧
      (∃ h, recordOutcome N [true, false, true, true] false = some h)) ∧
    (1 ≤ scenarioC.HistorySize → ∃ r, tick sampleApi { isUp := false } scenarioC = some r) :=
  C20_reslice_in_bounds none none sampleApi { isUp := false } scenarioC
    [true, false, true, true] false

/-! ## The critical leg and the status re-issue -/

/-- The partial flag is set only when neither of the other two flags is. -/
theorem triggerFlags_exclusive (mon : AbstractMonitor) (numDown : Nat) (t : Int)
    (hp : (triggerFlags mon numDown t).partialTriggered = true) :
    (triggerFlags mon numDown t).triggered = false ∧
    (triggerFlags mon numDown t).criticalTriggered = false := by
  unfold triggerFlags at hp ⊢
  by_cases hd : (numDown : Int) > 0
  · by_cases hplain : mon.ThresholdCount > 0 ∨ mon.Threshold > 0
    · simp only [hd, hplain, if_true] at hp
      split_ifs at hp
    · simp only [hd, hplain, if_true, if_false] at hp ⊢
      refine ⟨trivial, ?_⟩
      by_contra hc
      simp only [hc, not_true_eq_false, if_false] at hp
      exact Bool.noConfusion hp
  · simp only [hd, if_false] at hp
    exact Bool.noConfusion hp

theorem forceStatus_calls (api : Api) (f : Trigger) (mon : AbstractMonitor)
    (hex : f.partialTriggered = true → f.triggered = false ∧ f.criticalTriggered = false)
    (hfire : f.fires = true) :
    statusCalls (forceStatus api f mon).2 =
      (if mon.currentStatus = (if f.partialTriggered then 3 else 4) then []
       else [if f.partialTriggered then 3 else 4]) := by
  unfold forceStatus
  cases hp : f.partialTriggered with
  | true =>
    obtain ⟨h1, h2⟩ := hex hp
    by_cases hs : mon.currentStatus = 3 <;>
      simp [h1, h2, isPartial, hs, statusCalls]
  | false =>
    have h12 : (f.triggered || f.criticalTriggered) = true := by
      simpa [Trigger.fires, hp] using hfire
    by_cases hs : mon.currentStatus = 4 <;>
      simp [h12, isCritical, hs, statusCalls]

/-- C16. In a triggered cycle (saturated window) with an incident tracked,
the desired status is 3 when the trigger is partial and 4 otherwise, and
`AnalyseData` issues exactly one set-status call, for that status, when the
cached status differs from it, and none when the cached status equals it. -/
theorem C16_status_reissued_iff_different (api : Api) (mon : AbstractMonitor) (inc : Incident)
    (hsat : (mon.history.length : Int) = mon.HistorySize)
    (hfire : (windowFlags mon).fires = true)
    (hinc : mon.incident = some inc) :
    statusCalls (AnalyseData api mon).2 =
      (if mon.currentStatus = (if (windowFlags mon).partialTriggered then 3 else 4) then []
       else [if (windowFlags mon).partialTriggered then 3 else 4]) := by
  rw [AnalyseData_fires api mon hsat hfire]
  simp only [hinc, statusCalls_append, reportAvailability_calls]
  rw [forceStatus_calls api (windowFlags mon) (recount mon)
    (triggerFlags_exclusive mon _ _) hfire]
  simp [statusCalls, recount]

/-- C16 at the window of scenario A with its incident tracked: with the
cached status 2 the status 4 is set once, with the cached status 4 no call
is made. -/
theorem C16_status_reissued_iff_different_witness :
    statusCalls (AnalyseData sampleApi stillDownStale).2 = [4] ∧
    statusCalls (AnalyseData sampleApi stillDown).2 = [] := by
  constructor
  · have h := C16_status_reissued_iff_different sampleApi stillDownStale openIncident
      (by decide) (by decide) rfl
    have hp : (windowFlags stillDownStale).partialTriggered = false := by decide
    rw [hp] at h
    simpa [stillDownStale] using h
  · have h := C16_status_reissued_iff_different sampleApi stillDown openIncident
      (by decide) (by decide) rfl
    have hp : (windowFlags stillDown).partialTriggered = false := by decide
    rw [hp] at h
    simpa [stillDown] using h

/-! ## Stopping the clock -/

theorem stopTimes_closed (n : Nat) (mon : AbstractMonitor) (h : mon.stopC = StopChan.closed) :
    stopTimes n mon = some (mon, 0) := by
  induction n with
  | zero => rfl
  | succ n ih => simp [stopTimes, ClockStop, h, ih]

/-- C15. On a monitor whose stop channel was made by `ClockStart` and is
still open, the first `ClockStop` closes the channel, a `ClockStop` on the
resulting state returns without closing and leaves the state as it is, and
any number of calls in succession, two in particular, ends without fault in
that same stopped state with the channel closed exactly once. -/
theorem C15_stop_twice (mon : AbstractMonitor) (n : Nat)
    (hstarted : mon.stopC = StopChan.isOpen) :
    ClockStop mon = some ({ mon with stopC := StopChan.closed }, true) ∧
    ClockStop { mon with stopC := StopChan.closed } =
      some ({ mon with stopC := StopChan.closed }, false) ∧
    stopTimes 2 mon = some ({ mon with stopC := StopChan.closed }, 1) ∧
    stopTimes (n + 1) mon = some ({ mon with stopC := StopChan.closed }, 1) := by
  have h1 : ClockStop mon = some ({ mon with stopC := StopChan.closed }, true) := by
    simp [ClockStop, hstarted]
  have h2 : ∀ k, stopTimes (k + 1) mon = some ({ mon with stopC := StopChan.closed }, 1) := by
    intro k
    simp [stopTimes, h1, stopTimes_closed k { mon with stopC := StopChan.closed } rfl]
  exact ⟨h1, rfl, h2 1, h2 n⟩

/-- C15 at scenario A after `ClockStart` made the channel, with five calls. -/
theorem C15_stop_twice_witness :
    ClockStop (makeStopC scenarioA) =
      some ({ makeStopC scenarioA with stopC := StopChan.closed }, true) ∧
    ClockStop { makeStopC scenarioA with stopC := StopChan.closed } =
      some ({ makeStopC scenarioA with stopC := StopChan.closed }, false) ∧
    stopTimes 2 (makeStopC scenarioA) =
      some ({ makeStopC scenarioA with stopC := StopChan.closed }, 1) ∧
    stopTimes (4 + 1) (makeStopC scenarioA) =
      some ({ makeStopC scenarioA with stopC := StopChan.closed }, 1) :=
  C15_stop_twice (makeStopC scenarioA) 4 rfl

/-! ## Validation of interval and timeout -/

theorem hasTimeoutError_append (a b : List ValidateError) :
    hasTimeoutError (a ++ b) = (hasTimeoutError a || hasTimeoutError b) := by
  induction a with
  | nil => rfl
  | cons x xs ih => cases x <;> simp [hasTimeoutError, ih]

theorem wrap64_of_range (x : Int) (h0 : 0 ≤ x) (h1 : x ≤ 9223372036000000000) :
    wrap64 x = x := by
  unfold wrap64
  norm_num
  omega

/-- The timeout test of `Validate` in terms of the values it compares. -/
theorem Validate_timeout (fixedErr investigatingErr : Option String) (mon : AbstractMonitor) :
    (Validate fixedErr investigatingErr mon).1.Interval =
      wrap64 (effectiveInterval mon * timeSecond) ∧
    (Validate fixedErr investigatingErr mon).1.Timeout =
      wrap64 (effectiveTimeout mon * timeSecond) ∧
    hasTimeoutError (Validate fixedErr investigatingErr mon).2 =
      decide (wrap64 (effectiveTimeout mon * timeSecond) >
        wrap64 (effectiveInterval mon * timeSecond)) := by
  refine ⟨rfl, rfl, ?_⟩
  unfold Validate effectiveInterval effectiveTimeout
  dsimp only
  generalize wrap64 ((if mon.Timeout < 1 then DefaultTimeout else mon.Timeout) * timeSecond) = T
  generalize wrap64 ((if mon.Interval < 1 then DefaultInterval else mon.Interval) * timeSecond) = I
  by_cases hn : mon.Name.length = 0 <;> by_cases ht : T > I <;>
  by_cases hid : mon.ComponentID = 0 ∧ mon.MetricID = 0 <;>
  cases fixedErr <;> cases investigatingErr <;>
  simp [hn, ht, hid, hasTimeoutError, hasTimeoutError_append]

/-- C12, refuted as stated.  With timeout 1 and interval 9223372037 the
timeout does not exceed the interval, yet scaling the interval to
nanoseconds wraps around and the timeout error is reported.  With timeout
9223372037 and interval 5 the timeout exceeds the interval, yet the scaled
timeout wraps around and `Validate` returns no error at all. -/
theorem C12_counterexample :
    (effectiveTimeout hugeInterval = 1 ∧ effectiveInterval hugeInterval = 9223372037 ∧
      hasTimeoutError (Validate none none hugeInterval).2 = true) ∧
    (effectiveTimeout hugeTimeout = 9223372037 ∧ effectiveInterval hugeTimeout = 5 ∧
      (Validate none none hugeTimeout).2 = []) := by
  decide

/-- C12, amended.  Let the effective interval be the configured one, or 60
when that is below 1, and the effective timeout the configured one, or 1
when that is below 1.  When both are at most 9223372036 seconds (so that
scaling to nanoseconds stays within int64), `Validate` stores them scaled by
`time.Second` and reports the timeout error exactly when the effective
timeout exceeds the effective interval; in that case the error list is not
empty. -/
theorem C12_timeout_error_iff (fixedErr investigatingErr : Option String)
    (mon : AbstractMonitor)
    (hi : effectiveInterval mon ≤ maxSeconds) (ht : effectiveTimeout mon ≤ maxSeconds) :
    (Validate fixedErr investigatingErr mon).1.Interval = effectiveInterval mon * timeSecond ∧
    (Validate fixedErr investigatingErr mon).1.Timeout = effectiveTimeout mon * timeSecond ∧
    (hasTimeoutError (Validate fixedErr investigatingErr mon).2 = true ↔
      effectiveTimeout mon > effectiveInterval mon) ∧
    (effectiveTimeout mon > effectiveInterval mon →
      (Validate fixedErr investigatingErr mon).2 ≠ []) := by
  obtain ⟨h1, h2, h3⟩ := Validate_timeout fixedErr investigatingErr mon
  have hi1 : 1 ≤ effectiveInterval mon := by
    unfold effectiveInterval DefaultInterval
    split_ifs <;> omega
  have ht1 : 1 ≤ effectiveTimeout mon := by
    unfold effectiveTimeout DefaultTimeout
    split_ifs <;> omega
  unfold maxSeconds at hi ht
  have wi : wrap64 (effectiveInterval mon * timeSecond) = effectiveInterval mon * timeSecond := by
    unfold timeSecond
    exact wrap64_of_range _ (by omega) (by omega)
  have wt : wrap64 (effectiveTimeout mon * timeSecond) = effectiveTimeout mon * timeSecond := by
    unfold timeSecond
    exact wrap64_of_range _ (by omega) (by omega)
  rw [wi] at h1 h3
  rw [wt] at h2 h3
  have hiff : hasTimeoutError (Validate fixedErr investigatingErr mon).2 = true ↔
      effectiveTimeout mon > effectiveInterval mon := by
    rw [h3]
    unfold timeSecond
    simp only [decide_eq_true_eq]
    constructor <;> intro h <;> omega
  refine ⟨h1, h2, hiff, ?_⟩
  intro hgt habs
  have := hiff.mpr hgt
  rw [habs] at this
  exact Bool.noConfusion this

/-- C12 (amended) at timeout 30 and interval 10: the timeout error is
reported. -/
theorem C12_timeout_error_iff_witness :
    (Validate none none slowProbe).1.Interval = effectiveInterval slowProbe * timeSecond ∧
    (Validate none none slowProbe).1.Timeout = effectiveTimeout slowProbe * timeSecond ∧
    (hasTimeoutError (Validate none none slowProbe).2 = true ↔
      effectiveTimeout slowProbe > effectiveInterval slowProbe) ∧
    (effectiveTimeout slowProbe > effectiveInterval slowProbe →
      (Validate none none slowProbe).2 ≠ []) :=
  C12_timeout_error_iff none none slowProbe (by decide) (by decide)

/-! ## Resync -/

theorem reloadCount_append (a b : List Action) :
    reloadCount (a ++ b) = reloadCount a + reloadCount b := by
  induction a with
  | nil => simp [reloadCount]
  | cons x xs ih => cases x <;> simp [reloadCount, ih]; omega

theorem forceStatus_resync (api : Api) (f : Trigger) (mon : AbstractMonitor) :
    (forceStatus api f mon).1.resyncMod = mon.resyncMod ∧
    (forceStatus api f mon).1.Enabled = mon.Enabled ∧
    reloadCount (forceStatus api f mon).2 = 0 := by
  unfold forceStatus
  dsimp only
  split_ifs <;> simp [reloadCount]

theorem backToNormal_resync (api : Api) (mon : AbstractMonitor) :
    (backToNormal api mon).1.resyncMod = mon.resyncMod ∧
    (backToNormal api mon).1.Enabled = mon.Enabled ∧
    reloadCount (backToNormal api mon).2 = 0 := by
  unfold backToNormal
  cases mon.incident with
  | none => dsimp only; split_ifs <;> simp [reloadCount]
  | some inc => simp [reloadCount]

theorem reportAvailability_reloads (mon : AbstractMonitor) :
    reloadCount (reportAvailability mon) = 0 := by
  unfold reportAvailability
  split_ifs <;> rfl

/-- The resync counter is untouched by `AnalyseData`, which does not reload. -/
theorem AnalyseData_resync (api : Api) (mon : AbstractMonitor) :
    (AnalyseData api mon).1.resyncMod = mon.resyncMod ∧
    (AnalyseData api mon).1.Enabled = mon.Enabled ∧
    reloadCount (AnalyseData api mon).2 = 0 := by
  by_cases hsat : (mon.history.length : Int) = mon.HistorySize
  · cases hf : (windowFlags mon).fires with
    | true =>
      rw [AnalyseData_fires api mon hsat hf]
      have h1 : (match mon.incident with
          | none => createIncident api (windowFlags mon) (recount mon)
          | some _ => (recount mon, [])).1.resyncMod = mon.resyncMod ∧
          (match mon.incident with
          | none => createIncident api (windowFlags mon) (recount mon)
          | some _ => (recount mon, [])).1.Enabled = mon.Enabled ∧
          reloadCount (match mon.incident with
          | none => createIncident api (windowFlags mon) (recount mon)
          | some _ => (recount mon, [])).2 = 0 := by
        cases mon.incident with
        | none => exact ⟨rfl, rfl, rfl⟩
        | some inc => exact ⟨rfl, rfl, rfl⟩
      have h2 := forceStatus_resync api (windowFlags mon) (match mon.incident with
          | none => createIncident api (windowFlags mon) (recount mon)
          | some _ => (recount mon, [])).1
      refine ⟨h2.1.trans h1.1, h2.2.1.trans h1.2.1, ?_⟩
      simp [reloadCount_append, reportAvailability_reloads, reloadCount, h1.2.2, h2.2.2]
    | false =>
      rw [AnalyseData_quiet api mon hsat hf]
      have h2 := backToNormal_resync api (recount mon)
      refine ⟨h2.1, h2.2.1, ?_⟩
      simp [reloadCount_append, reportAvailability_reloads, h2.2.2]
  · rw [AnalyseData_unsaturated api mon hsat]
    exact ⟨rfl, rfl, reportAvailability_reloads mon⟩

theorem resyncStep_resync (api : Api) (mon : AbstractMonitor) :
    (mon.Resync ≤ 0 →
      (resyncStep api mon).1.resyncMod = mon.resyncMod ∧
      reloadCount (resyncStep api mon).2 = 0) ∧
    (0 < mon.Resync →
      (resyncStep api mon).1.resyncMod = Int.tmod (mon.resyncMod + 1) mon.Resync ∧
      reloadCount (resyncStep api mon).2 =
        (if Int.tmod (mon.resyncMod + 1) mon.Resync = 0 then 1 else 0)) := by
  constructor
  · intro hR
    have hR2 : ¬ mon.Resync > 0 := by omega
    simp [resyncStep, hR2, reloadCount]
  · intro hR
    have hR2 : mon.Resync > 0 := hR
    unfold resyncStep
    simp only [hR2, if_true]
    by_cases hz : Int.tmod (mon.resyncMod + 1) mon.Resync = 0
    · simp [hz, ReloadCachetData, reloadCount]
    · simp [hz, reloadCount]

theorem afterRecord_reloads (api : Api) (probe : ProbeResult) (mon : AbstractMonitor) :
    reloadCount (afterRecord api probe mon).2 =
      reloadCount (resyncStep api (AnalyseData api mon).1).2 := by
  unfold afterRecord
  simp only [reloadCount_append, (AnalyseData_resync api mon).2.2]
  unfold triggerShellHook
  split_ifs <;> simp [reloadCount]

/-- The resync counter and the reloads of one enabled cycle after the
outcome was recorded. -/
theorem afterRecord_resync (api : Api) (probe : ProbeResult) (mon : AbstractMonitor) :
    (afterRecord api probe mon).1.Resync = mon.Resync ∧
    (mon.Resync ≤ 0 →
      (afterRecord api probe mon).1.resyncMod = mon.resyncMod ∧
      reloadCount (afterRecord api probe mon).2 = 0) ∧
    (0 < mon.Resync →
      (afterRecord api probe mon).1.resyncMod = Int.tmod (mon.resyncMod + 1) mon.Resync ∧
      reloadCount (afterRecord api probe mon).2 =
        (if Int.tmod (mon.resyncMod + 1) mon.Resync = 0 then 1 else 0)) := by
  have hw := (afterRecord_window api probe mon).1.2.2.1
  have ha := AnalyseData_resync api mon
  have haw := (AnalyseData_window api mon).1.2.2.1
  have hs := resyncStep_resync api (AnalyseData api mon).1
  rw [haw, ha.1] at hs
  have h1 : (afterRecord api probe mon).1 = (resyncStep api (AnalyseData api mon).1).1 := rfl
  rw [afterRecord_reloads, h1]
  exact ⟨by rw [← h1]; exact hw, hs.1, hs.2⟩

/-- The resync counter, the reloads and the probes of one tick. -/
theorem tick_resync (api : Api) (probe : ProbeResult) (mon mon1 : AbstractMonitor)
    (acts : List Action) (ht : tick api probe mon = some (mon1, acts)) :
    mon1.Resync = mon.Resync ∧
    (mon.Enabled = false →
      mon1.resyncMod = mon.resyncMod ∧ reloadCount acts = 0 ∧ probeCount acts = 0) ∧
    (mon.Enabled = true →
      probeCount acts = 1 ∧
      (mon.Resync ≤ 0 → mon1.resyncMod = mon.resyncMod ∧ reloadCount acts = 0) ∧
      (0 < mon.Resync →
        mon1.resyncMod = Int.tmod (mon.resyncMod + 1) mon.Resync ∧
        reloadCount acts = (if Int.tmod (mon.resyncMod + 1) mon.Resync = 0 then 1 else 0))) := by
  cases hen : mon.Enabled with
  | false =>
    rw [tick_disabled api probe mon hen] at ht
    simp only [Option.some.injEq, Prod.mk.injEq] at ht
    obtain ⟨h1, h2⟩ := ht
    subst h1 h2
    exact ⟨rfl, fun _ => ⟨rfl, rfl, rfl⟩, fun h => Bool.noConfusion h⟩
  | true =>
    have hf : (storeFailReason probe mon).Resync = mon.Resync ∧
        (storeFailReason probe mon).resyncMod = mon.resyncMod := by
      unfold storeFailReason
      cases probe.failReason <;> exact ⟨rfl, rfl⟩
    simp only [tick, hen, Bool.not_true, Bool.false_eq_true, if_false] at ht
    cases hrec : recordOutcome (storeFailReason probe mon).HistorySize
        (storeFailReason probe mon).history probe.isUp with
    | none => simp [hrec] at ht
    | some h =>
      simp only [hrec, Option.some.injEq, Prod.mk.injEq] at ht
      obtain ⟨h1, h2⟩ := ht
      have hr := afterRecord_resync api probe { storeFailReason probe mon with history := h }
      have hp := (afterRecord_window api probe
        { storeFailReason probe mon with history := h }).2
      have e1 : ({ storeFailReason probe mon with history := h } : AbstractMonitor).Resync =
          mon.Resync := hf.1
      have e2 : ({ storeFailReason probe mon with history := h } : AbstractMonitor).resyncMod =
          mon.resyncMod := hf.2
      rw [e1, e2] at hr
      subst h1 h2
      refine ⟨hr.1, fun h => Bool.noConfusion h, fun _ => ⟨?_, ?_, ?_⟩⟩
      · simp [probeCount, hp]
      · intro hR
        exact ⟨(hr.2.1 hR).1, by simpa [reloadCount] using (hr.2.1 hR).2⟩
      · intro hR
        exact ⟨(hr.2.2 hR).1, by simpa [reloadCount] using (hr.2.2 hR).2⟩

/-- With resync disabled no run of ticks reloads or moves the counter. -/
theorem runTicks_resync_off (inputs : List (Api × ProbeResult)) :
    ∀ (mon mon1 : AbstractMonitor) (acts : List Action), mon.Resync ≤ 0 →
      runTicks mon inputs = some (mon1, acts) →
      mon1.resyncMod = mon.resyncMod ∧ reloadCount acts = 0 := by
  induction inputs with
  | nil =>
    intro mon mon1 acts _ hrun
    simp only [runTicks, Option.some.injEq, Prod.mk.injEq] at hrun
    obtain ⟨h1, h2⟩ := hrun
    subst h1 h2
    exact ⟨rfl, rfl⟩
  | cons x rest ih =>
    intro mon mon1 acts hR hrun
    obtain ⟨api, probe⟩ := x
    cases ht : tick api probe mon with
    | none => simp [runTicks, ht] at hrun
    | some r =>
      obtain ⟨mon2, acts2⟩ := r
      cases hr : runTicks mon2 rest with
      | none => simp [runTicks, ht, hr] at hrun
      | some r2 =>
        obtain ⟨mon3, acts3⟩ := r2
        simp only [runTicks, ht, hr, Option.some.injEq, Prod.mk.injEq] at hrun
        obtain ⟨h1, h2⟩ := hrun
        obtain ⟨t1, t2, t3⟩ := tick_resync api probe mon mon2 acts2 ht
        have hstep : mon2.resyncMod = mon.resyncMod ∧ reloadCount acts2 = 0 := by
          cases hen : mon.Enabled with
          | false => exact ⟨(t2 hen).1, (t2 hen).2.1⟩
          | true => exact (t3 hen).2.1 hR
        obtain ⟨r1, r2⟩ := ih mon2 mon3 acts3 (by rw [t1]; exact hR) hr
        subst h1 h2
        exact ⟨r1.trans hstep.1, by rw [reloadCount_append, hstep.2, r2]⟩

/-- With resync every `R` cycles and the counter at `m < R`, a run of ticks
with `p` enabled cycles leaves the counter at `(m + p) % R` after
`(m + p) / R` reloads. -/
theorem runTicks_resync_on (R : Nat) (hR : 0 < R) (inputs : List (Api × ProbeResult)) :
    ∀ (mon mon1 : AbstractMonitor) (acts : List Action) (m : Nat),
      mon.Resync = (R : Int) → mon.resyncMod = (m : Int) → m < R →
      runTicks mon inputs = some (mon1, acts) →
      mon1.resyncMod = (((m + probeCount acts) % R : Nat) : Int) ∧
      reloadCount acts = (m + probeCount acts) / R := by
  induction inputs with
  | nil =>
    intro mon mon1 acts m _ hm hlt hrun
    simp only [runTicks, Option.some.injEq, Prod.mk.injEq] at hrun
    obtain ⟨h1, h2⟩ := hrun
    subst h1 h2
    simp [probeCount, reloadCount, Nat.mod_eq_of_lt hlt, Nat.div_eq_of_lt hlt, hm]
  | cons x rest ih =>
    intro mon mon1 acts m hres hm hlt hrun
    obtain ⟨api, probe⟩ := x
    cases ht : tick api probe mon with
    | none => simp [runTicks, ht] at hrun
    | some r =>
      obtain ⟨mon2, acts2⟩ := r
      cases hr : runTicks mon2 rest with
      | none => simp [runTicks, ht, hr] at hrun
      | some r2 =>
        obtain ⟨mon3, acts3⟩ := r2
        simp only [runTicks, ht, hr, Option.some.injEq, Prod.mk.injEq] at hrun
        obtain ⟨h1, h2⟩ := hrun
        obtain ⟨t1, t2, t3⟩ := tick_resync api probe mon mon2 acts2 ht
        subst h1 h2
        cases hen : mon.Enabled with
        | false =>
          obtain ⟨s1, s2, s3⟩ := t2 hen
          obtain ⟨r1, r2⟩ := ih mon2 mon3 acts3 m (t1.trans hres) (s1.trans hm) hlt hr
          rw [probeCount_append, reloadCount_append, s2, s3]
          simpa using ⟨r1, r2⟩
        | true =>
          obtain ⟨s1, _, s3⟩ := t3 hen
          have hpos : 0 < mon.Resync := by rw [hres]; exact_mod_cast hR
          obtain ⟨u1, u2⟩ := s3 hpos
          have hmod : Int.tmod (mon.resyncMod + 1) mon.Resync = (((m + 1) % R : Nat) : Int) := by
            rw [hres, hm, Int.ofNat_tmod]
            rfl
          rw [hmod] at u1 u2
          rw [probeCount_append, reloadCount_append, s1]
          by_cases hwrap : m + 1 = R
          · have hz : (m + 1) % R = 0 := by rw [hwrap]; exact Nat.mod_self R
            rw [hz] at u1 u2
            obtain ⟨r1, r2⟩ := ih mon2 mon3 acts3 0 (t1.trans hres) u1 hR hr
            have e : m + (1 + probeCount acts3) = R + probeCount acts3 := by omega
            rw [e, Nat.add_mod_left, Nat.add_div_left _ hR, r2]
            simp only [Nat.zero_add] at r1 ⊢
            refine ⟨r1, ?_⟩
            simp [u2]
            omega
          · have hlt2 : m + 1 < R := by omega
            have hz : (m + 1) % R = m + 1 := Nat.mod_eq_of_lt hlt2
            rw [hz] at u1 u2
            obtain ⟨r1, r2⟩ := ih mon2 mon3 acts3 (m + 1) (t1.trans hres) u1 hlt2 hr
            have e : m + (1 + probeCount acts3) = m + 1 + probeCount acts3 := by omega
            rw [e, r2]
            refine ⟨r1, ?_⟩
            have hne : ¬ (((m + 1 : Nat) : Int) = 0) := by omega
            rw [u2, if_neg hne, Nat.zero_add]

/-- C14. Over every prefix of a run of ticks that ends without fault, with
`p` the number of enabled cycles in it: when `Resync = R > 0` and the
counter starts at 0, the counter is `p % R`, so within `[0, R)`, and the
number of reloads is `p / R`, one more exactly when `p` reaches a multiple of
`R`; when `Resync ≤ 0` there is no reload and the counter keeps its value.
With a history size of at least 1 the run does not fault. -/
theorem C14_resync_every_R (mon mon1 : AbstractMonitor) (inputs : List (Api × ProbeResult))
    (k : Nat) (acts : List Action)
    (hrun : runTicks mon (inputs.take k) = some (mon1, acts)) :
    (∀ R : Nat, 0 < R → mon.Resync = (R : Int) → mon.resyncMod = 0 →
      mon1.resyncMod = ((probeCount acts % R : Nat) : Int) ∧
      0 ≤ mon1.resyncMod ∧ mon1.resyncMod < (R : Int) ∧
      reloadCount acts = probeCount acts / R) ∧
    (mon.Resync ≤ 0 → reloadCount acts = 0 ∧ mon1.resyncMod = mon.resyncMod) ∧
    (1 ≤ mon.HistorySize → ∃ r, runTicks mon inputs = some r) := by
  refine ⟨?_, ?_, runTicks_total inputs mon⟩
  · intro R hR hres hm
    obtain ⟨r1, r2⟩ := runTicks_resync_on R hR (inputs.take k) mon mon1 acts 0 hres
      (by simpa using hm) hR hrun
    simp only [Nat.zero_add] at r1 r2
    have hlt : probeCount acts % R < R := Nat.mod_lt _ hR
    refine ⟨r1, by rw [r1]; omega, by rw [r1]; exact_mod_cast hlt, r2⟩
  · intro hoff
    obtain ⟨r1, r2⟩ := runTicks_resync_off (inputs.take k) mon mon1 acts hoff hrun
    exact ⟨r2, r1⟩

/-- C14 at a monitor with `Resync = 2` over five enabled cycles: two
reloads, after the second and the fourth cycle, and the counter ends at 1. -/
theorem C14_resync_every_R_witness :
    ∃ mon1 acts, runTicks resyncEverySecond (fiveCycles.take 5) = some (mon1, acts) ∧
      probeCount acts = 5 ∧ reloadCount acts = 2 ∧ mon1.resyncMod = 1 ∧
      ((∀ R : Nat, 0 < R → resyncEverySecond.Resync = (R : Int) →
          resyncEverySecond.resyncMod = 0 →
          mon1.resyncMod = ((probeCount acts % R : Nat) : Int) ∧
          0 ≤ mon1.resyncMod ∧ mon1.resyncMod < (R : Int) ∧
          reloadCount acts = probeCount acts / R) ∧
        (resyncEverySecond.Resync ≤ 0 →
          reloadCount acts = 0 ∧ mon1.resyncMod = resyncEverySecond.resyncMod) ∧
        (1 ≤ resyncEverySecond.HistorySize → ∃ r, runTicks resyncEverySecond fiveCycles = some r)) :=
  ⟨_, _, rfl, by decide, by decide, by decide,
    C14_resync_every_R resyncEverySecond _ fiveCycles 5 _ rfl⟩

/-! ## The down-percent -/

set_option maxRecDepth 100000 in
/-- C13. One down entry of three compares as 33: a threshold of 33 does not
trigger and a threshold of 32 does.  But 53 down entries of 100 compare as
52, not as `⌊100 * 53 / 100⌋ = 53`: the float32 quotient `53 / 100` times 100
is `52.999996`.  With history size 100 and percent threshold 52 the window
with 53 down entries does not trigger and no incident is created.  For every
window shorter than 100 the compared value is the exact floor. -/
theorem C13_float32_percent_below_floor :
    downPercent 1 3 = 33 ∧
    (windowFlags oneOfThreeAt33).fires = false ∧
    (windowFlags oneOfThreeAt32).fires = true ∧
    downPercent 53 100 = 52 ∧ (100 * 53 / 100 : Nat) = 53 ∧
    f32Mul100 (f32Div (f32OfNat 53) (f32OfNat 100)) = (13893631, 262144) ∧
    (Validate none none fiftyThreeOfHundred).1.Threshold = 52 ∧
    (Validate none none fiftyThreeOfHundred).1.HistorySize = 100 ∧
    (fiftyThreeOfHundred.history.length : Int) = fiftyThreeOfHundred.HistorySize ∧
    fiftyThreeOfHundred.history.count false = 53 ∧
    (windowFlags fiftyThreeOfHundred).fires = false ∧
    (AnalyseData sampleApi fiftyThreeOfHundred).1.incident = none ∧
    incidentsSent (AnalyseData sampleApi fiftyThreeOfHundred).2 = [] ∧
    (∀ n ∈ List.range 100, ∀ d ∈ List.range (n + 1),
      downPercent d n = ((100 * d / n : Nat) : Int)) := by
  decide

/-! ## Drift recovery -/

/-- What `AnalyseData` does when the window does not trigger, whether it is
saturated or not, and no incident is tracked while the cached status is up:
it recounts and reports availability, nothing else. -/
theorem AnalyseData_healthy (api : Api) (mon : AbstractMonitor)
    (hstatus : mon.currentStatus = 1) (hinc : mon.incident = none)
    (hquiet : ¬ ((mon.history.length : Int) = mon.HistorySize ∧ (windowFlags mon).fires = true)) :
    AnalyseData api mon = (recount mon, reportAvailability mon) := by
  by_cases hsat : (mon.history.length : Int) = mon.HistorySize
  · have hq : (windowFlags mon).fires = false := by
      cases hf : (windowFlags mon).fires with
      | false => rfl
      | true => exact absurd ⟨hsat, hf⟩ hquiet
    rw [AnalyseData_quiet api mon hsat hq]
    have hb : backToNormal api (recount mon) = (recount mon, []) := by
      simp [backToNormal, recount, hinc, isUp, hstatus]
    rw [hb]
    simp
  · exact AnalyseData_unsaturated api mon hsat

theorem triggerShellHook_quiet (mon : AbstractMonitor) (hooktype hook data : String) :
    incidentsSent (triggerShellHook mon hooktype hook data) = [] ∧
    statusCalls (triggerShellHook mon hooktype hook data) = [] := by
  unfold triggerShellHook
  split_ifs <;> exact ⟨rfl, rfl⟩

/-- One cycle after the outcome was recorded on a healthy monitor whose window
does not trigger and whose reload, if any, reports "up, no incident". -/
theorem afterRecord_quiet (api : Api) (probe : ProbeResult) (mon : AbstractMonitor)
    (hstatus : mon.currentStatus = 1) (hinc : mon.incident = none)
    (hwin : ¬ ((mon.history.length : Int) = mon.HistorySize ∧ (windowFlags mon).fires = true))
    (hreload : 0 < mon.Resync → Int.tmod (mon.resyncMod + 1) mon.Resync = 0 →
      quietReload api mon.ComponentID) :
    incidentsSent (afterRecord api probe mon).2 = [] ∧
    statusCalls (afterRecord api probe mon).2 = [] ∧
    (afterRecord api probe mon).1.currentStatus = 1 ∧
    (afterRecord api probe mon).1.incident = none := by
  unfold afterRecord
  rw [AnalyseData_healthy api mon hstatus hinc hwin]
  have hres : incidentsSent (resyncStep api (recount mon)).2 = [] ∧
      statusCalls (resyncStep api (recount mon)).2 = [] ∧
      (resyncStep api (recount mon)).1.currentStatus = 1 ∧
      (resyncStep api (recount mon)).1.incident = none := by
    unfold resyncStep
    dsimp only
    split_ifs with h1 h2
    · have hq : quietReload api mon.ComponentID := hreload h1 h2
      exact ⟨rfl, rfl, hq.1, hq.2⟩
    · exact ⟨rfl, rfl, hstatus, hinc⟩
    · exact ⟨rfl, rfl, hstatus, hinc⟩
  have hhook := triggerShellHook_quiet (recount mon) "on_failure"
    (recount mon).ShellHookOnFailure ""
  refine ⟨?_, ?_, hres.2.2.1, hres.2.2.2⟩
  · simp only [incidentsSent_append, reportAvailability_sent, hres.1]
    split_ifs <;> simp [incidentsSent, hhook.1]
  · simp only [statusCalls_append, reportAvailability_calls, hres.2.1]
    split_ifs <;> simp [statusCalls, hhook.2]

/-- One quiet tick on a healthy monitor: nothing is created or re-issued,
and the monitor stays healthy. -/
theorem tick_quiet (api : Api) (probe : ProbeResult) (mon mon1 : AbstractMonitor)
    (acts : List Action)
    (hstatus : mon.currentStatus = 1) (hinc : mon.incident = none)
    (hq : cycleQuiet api probe mon = true)
    (ht : tick api probe mon = some (mon1, acts)) :
    incidentsSent acts = [] ∧ statusCalls acts = [] ∧
    mon1.currentStatus = 1 ∧ mon1.incident = none := by
  cases hen : mon.Enabled with
  | false =>
    rw [tick_disabled api probe mon hen] at ht
    simp only [Option.some.injEq, Prod.mk.injEq] at ht
    obtain ⟨h1, h2⟩ := ht
    subst h1 h2
    exact ⟨rfl, rfl, hstatus, hinc⟩
  | true =>
    obtain ⟨f1, f2, f3, f4, f5, f6⟩ := storeFailReason_fields probe mon
    simp only [tick, hen, Bool.not_true, Bool.false_eq_true, if_false] at ht
    cases hrec : recordOutcome (storeFailReason probe mon).HistorySize
        (storeFailReason probe mon).history probe.isUp with
    | none => simp [hrec] at ht
    | some h =>
      simp only [hrec, Option.some.injEq, Prod.mk.injEq] at ht
      obtain ⟨h1, h2⟩ := ht
      have hrec2 : recordOutcome mon.HistorySize mon.history probe.isUp = some h := by
        rw [← f4, ← f3]; exact hrec
      simp only [cycleQuiet, hen, hrec2, Bool.not_true, Bool.false_or, Bool.and_eq_true,
        Bool.not_eq_true', Bool.and_eq_false_iff, Bool.or_eq_true, decide_eq_true_eq,
        decide_eq_false_iff_not, Option.isNone_iff_eq_none] at hq
      obtain ⟨hwin, hreload⟩ := hq
      have hfl : (windowFlags { storeFailReason probe mon with history := h }).fires =
          firesOn mon h := by
        unfold storeFailReason
        cases probe.failReason <;> rfl
      have hres : ({ storeFailReason probe mon with history := h } : AbstractMonitor).Resync =
            mon.Resync ∧
          ({ storeFailReason probe mon with history := h } : AbstractMonitor).resyncMod =
            mon.resyncMod := by
        unfold storeFailReason
        cases probe.failReason <;> exact ⟨rfl, rfl⟩
      have hall := afterRecord_quiet api probe { storeFailReason probe mon with history := h }
        (by exact f1.trans hstatus) (by exact f2.trans hinc)
        (by
          rw [hfl]
          intro hc
          have hc1 : (h.length : Int) = mon.HistorySize := hc.1.trans f4
          rcases hwin with hw | hw
          · exact hw hc1
          · rw [hc.2] at hw
            exact Bool.noConfusion hw)
        (by
          rw [hres.1, hres.2]
          intro hR hz
          show quietReload api (storeFailReason probe mon).ComponentID
          rw [f6]
          rcases hreload with hr | hr
          · rcases hr with hr | hr
            · exact absurd hR hr
            · exact absurd hz hr
          · exact hr)
      subst h1 h2
      refine ⟨?_, ?_, hall.2.2.1, hall.2.2.2⟩
      · simpa [incidentsSent] using hall.1
      · simpa [statusCalls] using hall.2.1

/-- A run of quiet cycles from a healthy monitor. -/
theorem runTicks_quiet (inputs : List (Api × ProbeResult)) :
    ∀ (mon mon1 : AbstractMonitor) (acts : List Action),
      mon.currentStatus = 1 → mon.incident = none → runQuiet mon inputs = true →
      runTicks mon inputs = some (mon1, acts) →
      incidentsSent acts = [] ∧ statusCalls acts = [] ∧
        mon1.currentStatus = 1 ∧ mon1.incident = none := by
  induction inputs with
  | nil =>
    intro mon mon1 acts hstatus hinc _ hrun
    simp only [runTicks, Option.some.injEq, Prod.mk.injEq] at hrun
    obtain ⟨h1, h2⟩ := hrun
    subst h1 h2
    exact ⟨rfl, rfl, hstatus, hinc⟩
  | cons x rest ih =>
    intro mon mon1 acts hstatus hinc hq hrun
    obtain ⟨api, probe⟩ := x
    cases ht : tick api probe mon with
    | none => simp [runTicks, ht] at hrun
    | some r =>
      obtain ⟨mon2, acts2⟩ := r
      cases hr : runTicks mon2 rest with
      | none => simp [runTicks, ht, hr] at hrun
      | some r2 =>
        obtain ⟨mon3, acts3⟩ := r2
        simp only [runTicks, ht, hr, Option.some.injEq, Prod.mk.injEq] at hrun
        obtain ⟨h1, h2⟩ := hrun
        simp only [runQuiet, ht, Bool.and_eq_true] at hq
        obtain ⟨t1, t2, t3, t4⟩ := tick_quiet api probe mon mon2 acts2 hstatus hinc hq.1 ht
        obtain ⟨r1, r2, r3, r4⟩ := ih mon2 mon3 acts3 t3 t4 hq.2 hr
        subst h1 h2
        exact ⟨by rw [incidentsSent_append, t1, r1]; rfl,
          by rw [statusCalls_append, t2, r2]; rfl, r3, r4⟩

/-- Every prefix of a run of quiet cycles is a run of quiet cycles. -/
theorem runQuiet_take (inputs : List (Api × ProbeResult)) :
    ∀ (mon : AbstractMonitor) (k : Nat), runQuiet mon inputs = true →
      runQuiet mon (inputs.take k) = true := by
  induction inputs with
  | nil => intro mon k h; simpa using h
  | cons x rest ih =>
    intro mon k h
    obtain ⟨api, probe⟩ := x
    cases k with
    | zero => rfl
    | succ k =>
      simp only [runQuiet, Bool.and_eq_true] at h
      simp only [List.take_succ_cons, runQuiet, Bool.and_eq_true]
      refine ⟨h.1, ?_⟩
      cases ht : tick api probe mon with
      | none => rfl
      | some r =>
        obtain ⟨mon1, acts1⟩ := r
        have h2 := h.2
        rw [ht] at h2
        exact ih mon1 k h2

/-- C10, amended.  Start from a monitor whose cached status is up and which
tracks no incident.  Over every run of ticks in which every cycle is quiet,
that is, no cycle analyses a window that is both saturated and triggering
and every reload that takes place reports the component as up with no open
incident, no prefix of the run hands an incident to `Send` or issues a
set-status call, and the cached status is still up and no incident is
tracked after it; this holds whatever the probes return, so in particular
when they are all up.  With a history size of at least 1 the run does not
fault. -/
theorem C10_all_up_run (mon : AbstractMonitor) (inputs : List (Api × ProbeResult))
    (hstatus : mon.currentStatus = 1) (hinc : mon.incident = none)
    (hquiet : runQuiet mon inputs = true) :
    (1 ≤ mon.HistorySize → ∃ r, runTicks mon inputs = some r) ∧
    ∀ (k : Nat) (mon1 : AbstractMonitor) (acts : List Action),
      runTicks mon (inputs.take k) = some (mon1, acts) →
      incidentsSent acts = [] ∧ statusCalls acts = [] ∧
        mon1.currentStatus = 1 ∧ mon1.incident = none := by
  refine ⟨runTicks_total inputs mon, ?_⟩
  intro k mon1 acts hrun
  exact runTicks_quiet (inputs.take k) mon mon1 acts hstatus hinc
    (runQuiet_take inputs mon k hquiet) hrun

/-- C10 (amended) at `healthyWithDown`: count threshold 2, saturated window
`[up, up, down]`, resync after every cycle, and three cycles with up probes
answered by `sampleApi`, whose remote side reports status up. -/
theorem C10_all_up_run_witness :
    (1 ≤ healthyWithDown.HistorySize → ∃ r, runTicks healthyWithDown upCycles = some r) ∧
    ∀ (k : Nat) (mon1 : AbstractMonitor) (acts : List Action),
      runTicks healthyWithDown (upCycles.take k) = some (mon1, acts) →
      incidentsSent acts = [] ∧ statusCalls acts = [] ∧
        mon1.currentStatus = 1 ∧ mon1.incident = none :=
  C10_all_up_run healthyWithDown upCycles rfl rfl (by decide)

/-- On a saturated, triggering window with no incident tracked an incident
is handed to `Send`. -/
theorem AnalyseData_creates (api : Api) (mon : AbstractMonitor)
    (hsat : (mon.history.length : Int) = mon.HistorySize)
    (hfire : (windowFlags mon).fires = true) (hnone : mon.incident = none) :
    incidentsSent (AnalyseData api mon).2 ≠ [] := by
  rw [AnalyseData_fires api mon hsat hfire]
  simp only [hnone, incidentsSent_append, forceStatus_sent, reportAvailability_sent]
  simp [createIncident, incidentsSent]

/-- A cycle that is not quiet, run from a healthy monitor, either hands an
incident to `Send` or leaves the monitor with a cached status other than up
or with an incident tracked. -/
theorem tick_not_quiet (api : Api) (probe : ProbeResult) (mon : AbstractMonitor)
    (hstatus : mon.currentStatus = 1) (hinc : mon.incident = none)
    (hq : cycleQuiet api probe mon = false) :
    ∃ mon1 acts, tick api probe mon = some (mon1, acts) ∧
      (incidentsSent acts ≠ [] ∨ mon1.currentStatus ≠ 1 ∨ mon1.incident ≠ none) := by
  cases hen : mon.Enabled with
  | false => simp [cycleQuiet, hen] at hq
  | true =>
    obtain ⟨f1, f2, f3, f4, f5, f6⟩ := storeFailReason_fields probe mon
    cases hrec2 : recordOutcome mon.HistorySize mon.history probe.isUp with
    | none => simp [cycleQuiet, hen, hrec2] at hq
    | some h =>
      have hrec : recordOutcome (storeFailReason probe mon).HistorySize
          (storeFailReason probe mon).history probe.isUp = some h := by
        rw [f4, f3]; exact hrec2
      have ht : tick api probe mon =
          some ((afterRecord api probe { storeFailReason probe mon with history := h }).1,
            Action.probe ::
              (afterRecord api probe { storeFailReason probe mon with history := h }).2) := by
        simp only [tick, hen, Bool.not_true, Bool.false_eq_true, if_false, hrec]
      refine ⟨_, _, ht, ?_⟩
      have hfl : (windowFlags { storeFailReason probe mon with history := h }).fires =
          firesOn mon h := by
        unfold storeFailReason
        cases probe.failReason <;> rfl
      have hres : ({ storeFailReason probe mon with history := h } : AbstractMonitor).Resync =
            mon.Resync ∧
          ({ storeFailReason probe mon with history := h } : AbstractMonitor).resyncMod =
            mon.resyncMod := by
        unfold storeFailReason
        cases probe.failReason <;> exact ⟨rfl, rfl⟩
      by_cases hwin : (h.length : Int) = mon.HistorySize ∧ firesOn mon h = true
      · left
        have hc := AnalyseData_creates api { storeFailReason probe mon with history := h }
          (by exact hwin.1.trans f4.symm) (by rw [hfl]; exact hwin.2) (by exact f2.trans hinc)
        unfold afterRecord
        intro habs
        simp only [incidentsSent, incidentsSent_append, List.append_eq_nil] at habs
        exact hc habs.1.1.1.1
      · right
        have hwin2 : ¬ (((({ storeFailReason probe mon with history := h } :
            AbstractMonitor).history.length : Nat) : Int) =
              ({ storeFailReason probe mon with history := h } : AbstractMonitor).HistorySize ∧
            (windowFlags { storeFailReason probe mon with history := h }).fires = true) := by
          rw [hfl]
          intro hc
          exact hwin ⟨hc.1.trans f4, hc.2⟩
        have hwinB : (decide ((h.length : Int) = mon.HistorySize) && firesOn mon h) = false := by
          cases hb : (decide ((h.length : Int) = mon.HistorySize) && firesOn mon h) with
          | false => rfl
          | true =>
            simp only [Bool.and_eq_true, decide_eq_true_eq] at hb
            exact absurd hb hwin
        simp only [cycleQuiet, hen, hrec2, hwinB, Bool.not_true, Bool.false_or, Bool.not_false,
          Bool.true_and, Bool.or_eq_false_iff, Bool.not_eq_false', Bool.and_eq_true,
          decide_eq_true_eq, Bool.and_eq_false_iff, decide_eq_false_iff_not,
          Option.isNone_iff_eq_none] at hq
        obtain ⟨⟨hR, hz⟩, hnq⟩ := hq
        have hA := AnalyseData_healthy api { storeFailReason probe mon with history := h }
          (f1.trans hstatus) (f2.trans hinc) hwin2
        have h1 : (afterRecord api probe { storeFailReason probe mon with history := h }).1 =
            (resyncStep api (AnalyseData api
              { storeFailReason probe mon with history := h }).1).1 := rfl
        rw [h1, hA]
        have hR2 : (recount { storeFailReason probe mon with history := h }).Resync > 0 := by
          show ({ storeFailReason probe mon with history := h } : AbstractMonitor).Resync > 0
          rw [hres.1]; exact hR
        have hz2 : Int.tmod ((recount { storeFailReason probe mon with history := h }).resyncMod
            + 1) (recount { storeFailReason probe mon with history := h }).Resync = 0 := by
          show Int.tmod (({ storeFailReason probe mon with history := h } :
            AbstractMonitor).resyncMod + 1)
            ({ storeFailReason probe mon with history := h } : AbstractMonitor).Resync = 0
          rw [hres.1, hres.2]; exact hz
        have hcid : (recount { storeFailReason probe mon with history := h }).ComponentID =
            mon.ComponentID := f6
        simp only [resyncStep, hR2, if_true, hz2, ReloadCachetData, hcid]
        rcases hnq with hs | hi
        · exact Or.inl hs
        · refine Or.inr ?_
          intro hn
          rw [hn] at hi
          exact Bool.noConfusion hi

/-- The quiet-cycle condition is necessary: when over every prefix of a run
from a healthy monitor no incident is handed to `Send`, the cached status is
up and no incident is tracked, every cycle of the run is quiet. -/
theorem runQuiet_necessary (inputs : List (Api × ProbeResult)) :
    ∀ mon : AbstractMonitor, mon.currentStatus = 1 → mon.incident = none →
      (∀ (k : Nat) (mon1 : AbstractMonitor) (acts : List Action),
        runTicks mon (inputs.take k) = some (mon1, acts) →
        incidentsSent acts = [] ∧ statusCalls acts = [] ∧
          mon1.currentStatus = 1 ∧ mon1.incident = none) →
      runQuiet mon inputs = true := by
  induction inputs with
  | nil => intro mon _ _ _; rfl
  | cons x rest ih =>
    intro mon hstatus hinc hall
    obtain ⟨api, probe⟩ := x
    have hq : cycleQuiet api probe mon = true := by
      cases hc : cycleQuiet api probe mon with
      | true => rfl
      | false =>
        obtain ⟨mon1, acts, ht, hbad⟩ := tick_not_quiet api probe mon hstatus hinc hc
        have h1 := hall 1 mon1 (acts ++ []) (by simp [runTicks, ht])
        rw [List.append_nil] at h1
        rcases hbad with hb | hb | hb
        · exact absurd h1.1 hb
        · exact absurd h1.2.2.1 hb
        · exact absurd h1.2.2.2 hb
    simp only [runQuiet, hq, Bool.true_and]
    cases ht : tick api probe mon with
    | none => rfl
    | some r =>
      obtain ⟨mon1, acts1⟩ := r
      have h1 := hall 1 mon1 (acts1 ++ []) (by simp [runTicks, ht])
      refine ih mon1 h1.2.2.1 h1.2.2.2 ?_
      intro k mon2 acts2 hrun
      have h2 := hall (k + 1) mon2 (acts1 ++ acts2) (by simp [runTicks, ht, hrun])
      rw [incidentsSent_append, statusCalls_append] at h2
      exact ⟨(List.append_eq_nil.mp h2.1).2, (List.append_eq_nil.mp h2.2.1).2, h2.2.2⟩

/-- A special case of the quiet-cycle condition: a healthy monitor whose
window holds no down entry, probes that are all up, and resync disabled or
every reload answered by "up, no open incident". -/
theorem runQuiet_of_all_up (mon : AbstractMonitor) (inputs : List (Api × ProbeResult))
    (hstatus : mon.currentStatus = 1) (hinc : mon.incident = none)
    (hwin : ∀ b ∈ mon.history, b = true)
    (hup : ∀ x ∈ inputs, x.2.isUp = true)
    (hquiet : mon.Resync ≤ 0 ∨ ∀ x ∈ inputs, quietReload x.1 mon.ComponentID) :
    runQuiet mon inputs = true := by
  refine runQuiet_necessary inputs mon hstatus hinc ?_
  intro k mon1 acts hrun
  refine runTicks_all_up (inputs.take k) mon mon1 acts hstatus hinc hwin
    (fun x hx => hup x (List.mem_of_mem_take hx)) ?_ hrun
  rcases hquiet with hq | hq
  · exact Or.inl hq
  · exact Or.inr (fun x hx => hq x (List.mem_of_mem_take hx))

end Cachet
